import Mathlib

/-!
Shallow embedding of the SPI SD/MMC block-device driver `src/User/diskio.c`
(FatFs glue layer, single logical drive).

Modelling conventions:

* Machine bytes and words are `Nat`; wherever C truncates (BYTE parameters,
  DWORD arithmetic) we take `% 256` / `% 2^32` explicitly.
* The SPI bus is an oracle `Env.card : Nat → Nat` giving the byte the card
  answers on the i-th exchange of the session (quantifying theorems over all
  oracles subsumes every deterministic card).  `World.idx` counts exchanges.
* The 1 kHz tick (`disk_timerproc`) runs concurrently with bus operations in
  the C program; we model the schedule in which it fires exactly once per bus
  exchange, which is the schedule the specification's timeout test assumes
  (one tick per polling iteration).  Each `xchg` therefore applies the full
  tick handler (timer decrements and the status update of this hardware
  variant, where the write-protect line reads 0 and card-detect reads 1).
* Every externally visible action is recorded in `World.trace`
  (newest event first): byte exchanges, chip-select transitions, the
  power/clock hooks (no-op macros in this variant, recorded as events since
  the driver invokes them as capability points), a marker for each data-block
  token transmission, and a marker for each write of the `CardType` variable.
* Busy-wait loops whose exit depends on a countdown timer are written with a
  fuel argument that the caller instantiates with the timer value current at
  loop entry.  Under the one-tick-per-exchange schedule every loop iteration
  performs at least one exchange, so the timer decreases at least as fast as
  the fuel and the fuel never runs out before the timer does; the fuel-zero
  fallback therefore agrees with the C loop.
* `rcvr_spi_multi`/`xmit_spi_multi` are do-while loops in C and are only ever
  called with a positive count; the embedding at count 0 transfers nothing.
-/

/-- Status bits and result codes from the standard FatFs headers
(`diskio.h`), which the source includes. -/
def STA_NOINIT : Nat := 0x01

/-- No-disk status bit. -/
def STA_NODISK : Nat := 0x02

/-- Write-protected status bit. -/
def STA_PROTECT : Nat := 0x04

/-- Successful result code. -/
def RES_OK : Nat := 0

/-- Hard error result code. -/
def RES_ERROR : Nat := 1

/-- Write-protected result code. -/
def RES_WRPRT : Nat := 2

/-- Not-ready result code. -/
def RES_NOTRDY : Nat := 3

/-- Parameter-error result code. -/
def RES_PARERR : Nat := 4

/-- Card-type bit: MMC version 3. -/
def CT_MMC : Nat := 0x01

/-- Card-type bit: SD version 1. -/
def CT_SD1 : Nat := 0x02

/-- Card-type bit: SD version 2. -/
def CT_SD2 : Nat := 0x04

/-- Card-type mask: any SD card. -/
def CT_SDC : Nat := 0x06

/-- Card-type bit: block addressing. -/
def CT_BLOCK : Nat := 0x08

/-- Command index with the application-command flag, as in the source
(ACMD13 = 0x80 + 13). -/
def ACMD13 : Nat := 0x80 + 13

/-- ACMD23 (pre-erase hint). -/
def ACMD23 : Nat := 0x80 + 23

/-- ACMD41 (SDC initialization). -/
def ACMD41 : Nat := 0x80 + 41

/-- Ioctl control code: sync. -/
def CTRL_SYNC : Nat := 0

/-- Ioctl control code: get sector count. -/
def GET_SECTOR_COUNT : Nat := 1

/-- Ioctl control code: get erase block size. -/
def GET_BLOCK_SIZE : Nat := 3

/-- Ioctl control code: get card type. -/
def MMC_GET_TYPE : Nat := 10

/-- Ioctl control code: get CSD. -/
def MMC_GET_CSD : Nat := 11

/-- Ioctl control code: get CID. -/
def MMC_GET_CID : Nat := 12

/-- Ioctl control code: get OCR. -/
def MMC_GET_OCR : Nat := 13

/-- Ioctl control code: get SD status. -/
def MMC_GET_SDSTAT : Nat := 14

/-- Observable events of a driver run, newest first in `World.trace`. -/
inductive Ev where
  /-- One SPI byte exchange: the byte the driver sent and the byte the card
  answered. -/
  | xchg (sent recv : Nat) : Ev
  /-- Chip-select released (`CS_HIGH`). -/
  | csHigh : Ev
  /-- Chip-select asserted (`CS_LOW`). -/
  | csLow : Ev
  /-- The `power_on` hook. -/
  | powerOn : Ev
  /-- The `power_off` hook. -/
  | powerOff : Ev
  /-- The `FCLK_SLOW` hook. -/
  | fclkSlow : Ev
  /-- The `FCLK_FAST` hook. -/
  | fclkFast : Ev
  /-- Marker: a data-block token byte was just exchanged by
  `xmit_datablock` (the token also appears as a plain `xchg` event). -/
  | dtoken (token : Nat) : Ev
  /-- Marker: the `CardType` variable was assigned this value. -/
  | setType (ty : Nat) : Ev
deriving DecidableEq, Repr

/-- The driver's mutable global variables: `Stat`, `Timer1`, `Timer2`,
`CardType`. -/
structure DriverState where
  stat : Nat
  timer1 : Nat
  timer2 : Nat
  cardType : Nat
deriving DecidableEq, Repr

/-- A driver state together with the bus session: how many exchanges have
happened and the event trace (newest first). -/
structure World where
  st : DriverState
  idx : Nat
  trace : List Ev
deriving DecidableEq, Repr

/-- The environment: the card's answer on the i-th byte exchange. -/
structure Env where
  card : Nat → Nat

/-- The tick handler `disk_timerproc`: decrement both timers with a floor at
zero, then update the socket status.  In this variant the write-protect line
`MMC_WP` is the constant 0 and the card-detect line `MMC_CD` is the constant
1, so the update clears `STA_PROTECT` and `STA_NODISK` (masks 0xFB and 0xFD
on the byte-sized `Stat`) and the no-disk branch that would set
`STA_NODISK | STA_NOINIT` is dead. -/
def disk_timerproc (s : DriverState) : DriverState :=
  { s with
    timer1 := s.timer1 - 1
    timer2 := s.timer2 - 1
    stat := (s.stat &&& 0xFB) &&& 0xFD }

/-- Record a non-exchange event. -/
def pushEv (e : Ev) (w : World) : World :=
  { w with trace := e :: w.trace }

/-- One SPI byte exchange (`xchg_spi`): send a byte, receive the oracle's
byte for the current exchange index, and let one tick elapse. -/
def xchg (env : Env) (sent : Nat) (w : World) : Nat × World :=
  let recv := env.card w.idx % 256
  (recv,
    { st := disk_timerproc w.st
      idx := w.idx + 1
      trace := Ev.xchg (sent % 256) recv :: w.trace })

/-- Burst transmit (`xmit_spi_multi`): send `cnt` bytes of the buffer
starting at offset `off`. -/
def xmit_spi_multi (env : Env) (buff : Nat → Nat) : Nat → Nat → World → World
  | _, 0, w => w
  | off, n + 1, w => xmit_spi_multi env buff (off + 1) n (xchg env (buff off) w).2

/-- Burst receive (`rcvr_spi_multi`): exchange `cnt` filler bytes collecting
the answers. -/
def rcvr_spi_multi (env : Env) : Nat → World → List Nat × World
  | 0, w => ([], w)
  | n + 1, w =>
      let (b, w') := xchg env 0xFF w
      let (bs, w'') := rcvr_spi_multi env n w'
      (b :: bs, w'')

/-- The body of `wait_ready`'s do-while loop.  `fuel` is instantiated with
the value of `Timer2` at loop entry (500); under the one-tick-per-exchange
schedule it tracks `Timer2` exactly, so the fuel-zero case (return the byte
just read, as the loop condition is then false) agrees with the C loop. -/
def waitReadyAux (env : Env) : Nat → World → Nat × World
  | 0, w => xchg env 0xFF w
  | fuel + 1, w =>
      let (d, w') := xchg env 0xFF w
      if d ≠ 0xFF ∧ w'.st.timer2 ≠ 0 then waitReadyAux env fuel w' else (d, w')

/-- Wait for the card to report ready (`wait_ready`): arm `Timer2` to 500
ticks, then exchange filler bytes until the card answers 0xFF or the timer
reaches zero. -/
def wait_ready (env : Env) (w : World) : Bool × World :=
  let w := { w with st := { w.st with timer2 := 500 } }
  let (d, w') := waitReadyAux env 500 w
  (d == 0xFF, w')

/-- Release the card (`mmc_deselect`): CS high plus one dummy clock. -/
def mmc_deselect (env : Env) (w : World) : World :=
  (xchg env 0xFF (pushEv Ev.csHigh w)).2

/-- Select the card (`mmc_select`): CS low, a dummy clock, then wait for
ready; on timeout deselect and fail. -/
def mmc_select (env : Env) (w : World) : Bool × World :=
  let w := pushEv Ev.csLow w
  let (_, w) := xchg env 0xFF w
  let (ok, w) := wait_ready env w
  if ok then (true, w) else (false, mmc_deselect env w)

/-- The data-token wait loop of `rcvr_datablock`: exchange filler bytes while
the answer is 0xFF and `Timer1` (armed to 100 by the caller) is nonzero.
`fuel` is instantiated with the `Timer1` value at loop entry, as for
`waitReadyAux`. -/
def tokenWaitAux (env : Env) : Nat → World → Nat × World
  | 0, w => xchg env 0xFF w
  | fuel + 1, w =>
      let (t, w') := xchg env 0xFF w
      if t = 0xFF ∧ w'.st.timer1 ≠ 0 then tokenWaitAux env fuel w' else (t, w')

/-- Receive a data block (`rcvr_datablock`): arm `Timer1` to 100 ticks, poll
for a token, fail unless it is the start token 0xFE, then burst-receive `btr`
bytes and discard two CRC bytes.  The received bytes are returned instead of
being written through the C buffer pointer. -/
def rcvr_datablock (env : Env) (btr : Nat) (w : World) : Bool × List Nat × World :=
  let w := { w with st := { w.st with timer1 := 100 } }
  let (token, w) := tokenWaitAux env 100 w
  if token ≠ 0xFE then (false, [], w)
  else
    let (data, w) := rcvr_spi_multi env btr w
    let (_, w) := xchg env 0xFF w
    let (_, w) := xchg env 0xFF w
    (true, data, w)

/-- Transmit a data block (`xmit_datablock`): wait for ready (fail on
timeout), exchange the token byte (also recorded as a `dtoken` marker); for
any token other than the stop token 0xFD, send 512 buffer bytes from `off`,
two dummy CRC bytes, and read the data response, failing unless its low five
bits are 0b00101. -/
def xmit_datablock (env : Env) (buff : Nat → Nat) (off : Nat) (token : Nat)
    (w : World) : Bool × World :=
  let (ok, w) := wait_ready env w
  if !ok then (false, w)
  else
    let (_, w) := xchg env token w
    let w := pushEv (Ev.dtoken token) w
    if token ≠ 0xFD then
      let w := xmit_spi_multi env buff off 512 w
      let (_, w) := xchg env 0xFF w
      let (_, w) := xchg env 0xFF w
      let (resp, w) := xchg env 0xFF w
      if resp &&& 0x1F ≠ 0x05 then (false, w) else (true, w)
    else (true, w)

/-- The response poll of `send_cmd`: up to `n` exchanges (the source uses
n = 10) waiting for a byte with the high bit clear; the last byte read is
returned.  The C loop tests `--n`, so `n` is the total number of attempts;
the embedding is never called with n = 0 (where the C counter would wrap). -/
def respPoll (env : Env) : Nat → World → Nat × World
  | 0, w => xchg env 0xFF w
  | 1, w => xchg env 0xFF w
  | n + 2, w =>
      let (res, w') := xchg env 0xFF w
      if res &&& 0x80 ≠ 0 then respPoll env (n + 1) w' else (res, w')

/-- The non-ACMD part of `send_cmd`: deselect/reselect (except for CMD12),
transmit the 6-byte command frame (valid CRC bytes for CMD0 and CMD8, the
0x01 placeholder otherwise), skip a stuff byte for CMD12, then poll for the
response. -/
def send_cmd_core (env : Env) (cmd arg : Nat) (w : World) : Nat × World :=
  let (sel, w) :=
    if cmd ≠ 12 then
      let w := mmc_deselect env w
      mmc_select env w
    else (true, w)
  if !sel then (0xFF, w)
  else
    let (_, w) := xchg env (0x40 ||| cmd) w
    let (_, w) := xchg env ((arg >>> 24) % 256) w
    let (_, w) := xchg env ((arg >>> 16) % 256) w
    let (_, w) := xchg env ((arg >>> 8) % 256) w
    let (_, w) := xchg env (arg % 256) w
    let n := if cmd = 0 then 0x95 else if cmd = 8 then 0x87 else 0x01
    let (_, w) := xchg env n w
    let w := if cmd = 12 then (xchg env 0xFF w).2 else w
    respPoll env 10 w

/-- Send a command (`send_cmd`): a command index with bit 7 set is an
application command, for which the escape CMD55 (argument 0) is issued first;
if its response exceeds 1 that response is returned without transmitting the
underlying frame.  The C function implements this by self-recursion on
CMD55, which has no flag, so one unfolding is exact. -/
def send_cmd (env : Env) (cmd arg : Nat) (w : World) : Nat × World :=
  if cmd &&& 0x80 ≠ 0 then
    let (res, w') := send_cmd_core env 55 0 w
    if res > 1 then (res, w') else send_cmd_core env (cmd &&& 0x7F) arg w'
  else send_cmd_core env cmd arg w

/-- Return the drive status (`disk_status`). -/
def disk_status (pdrv : Nat) (w : World) : Nat :=
  if pdrv ≠ 0 then STA_NOINIT else w.st.stat

/-- Exchange `n` dummy clocks (the `for (n = 10; n; n--) xchg_spi(0xFF)` loop
and the trailing-data purge of the ioctl). -/
def clocks (env : Env) : Nat → World → World
  | 0, w => w
  | n + 1, w => clocks env n (xchg env 0xFF w).2

/-- The `while (Timer1 && send_cmd(cmd, arg));` negotiation poll of
`disk_initialize`.  `fuel` is instantiated with the `Timer1` value at loop
entry; each `send_cmd` performs at least one exchange and hence at least one
tick, so the fuel never runs out before `Timer1` does and the fuel-zero case
(return the world unchanged, as the loop condition is then false) agrees
with the C loop. -/
def initPollAux (env : Env) (cmd arg : Nat) : Nat → World → World
  | 0, w => w
  | fuel + 1, w =>
      if w.st.timer1 ≠ 0 then
        let (res, w') := send_cmd env cmd arg w
        if res ≠ 0 then initPollAux env cmd arg fuel w' else w'
      else w

/-- The entry actions of `disk_initialize` once the guards have passed:
power-on hook, slow clock, 80 dummy clocks with the card deselected. -/
def initEntry (env : Env) (w : World) : World :=
  clocks env 10 (pushEv Ev.fclkSlow (pushEv Ev.powerOn w))

/-- The probe sequence of `disk_initialize` (CMD0, the SDv2 / SDv1 / MMCv3
discrimination, and the negotiation polls), returning the detected card type
(0 on failure). -/
def initProbe (env : Env) (w : World) : Nat × World :=
  let (r0, w) := send_cmd env 0 0 w
  if r0 = 1 then
    let w := { w with st := { w.st with timer1 := 1000 } }
    let (r8, w) := send_cmd env 8 0x1AA w
    if r8 = 1 then
      let (_, w) := xchg env 0xFF w
      let (_, w) := xchg env 0xFF w
      let (o2, w) := xchg env 0xFF w
      let (o3, w) := xchg env 0xFF w
      if o2 = 0x01 ∧ o3 = 0xAA then
        let w := initPollAux env ACMD41 0x40000000 w.st.timer1 w
        if w.st.timer1 ≠ 0 then
          let (r58, w) := send_cmd env 58 0 w
          if r58 = 0 then
            let (p0, w) := xchg env 0xFF w
            let (_, w) := xchg env 0xFF w
            let (_, w) := xchg env 0xFF w
            let (_, w) := xchg env 0xFF w
            (if p0 &&& 0x40 ≠ 0 then CT_SD2 ||| CT_BLOCK else CT_SD2, w)
          else (0, w)
        else (0, w)
      else (0, w)
    else
      let (ra, w) := send_cmd env ACMD41 0 w
      let ty0 := if ra ≤ 1 then CT_SD1 else CT_MMC
      let cmd := if ra ≤ 1 then ACMD41 else 1
      let w := initPollAux env cmd 0 w.st.timer1 w
      if w.st.timer1 = 0 then (0, w)
      else
        let (r16, w) := send_cmd env 16 512 w
        (if r16 ≠ 0 then 0 else ty0, w)
  else (0, w)

/-- The exit actions of `disk_initialize`: store the detected type in
`CardType`, deselect, then clear `STA_NOINIT` and select the fast clock on
success or invoke the power-off hook on failure; return `Stat`. -/
def initTail (env : Env) (ty : Nat) (w : World) : Nat × World :=
  let w := pushEv (Ev.setType ty) { w with st := { w.st with cardType := ty } }
  let w := mmc_deselect env w
  if ty ≠ 0 then
    let w := pushEv Ev.fclkFast { w with st := { w.st with stat := w.st.stat &&& 0xFE } }
    (w.st.stat, w)
  else
    let w := pushEv Ev.powerOff w
    (w.st.stat, w)

/-- Initialize the drive (embedding of the C function `disk_initialize`):
reject a drive index other than 0 with `STA_NOINIT`; return `Stat` at once
when `STA_NODISK` is set; otherwise run entry, probe, and tail. -/
def disk_init (env : Env) (pdrv : Nat) (w : World) : Nat × World :=
  if pdrv ≠ 0 then (STA_NOINIT, w)
  else if w.st.stat &&& STA_NODISK ≠ 0 then (w.st.stat, w)
  else
    let w := initEntry env w
    let (ty, w) := initProbe env w
    initTail env ty w

/-- The multi-block read loop of `disk_read`: a do-while over the remaining
count, receiving one 512-byte frame per iteration, breaking on the first
failure; returns the remaining count (0 on full success) and the received
bytes.  Never called with count 0 (the C counter would wrap). -/
def readLoopAux (env : Env) : Nat → List Nat → World → Nat × List Nat × World
  | 0, acc, w => (0, acc, w)
  | count + 1, acc, w =>
      let (ok, data, w') := rcvr_datablock env 512 w
      if ok then
        if count ≠ 0 then readLoopAux env count (acc ++ data) w'
        else (0, acc ++ data, w')
      else (count + 1, acc, w')

/-- Read sectors (`disk_read`).  The received bytes are returned instead of
being written through the C buffer pointer. -/
def disk_read (env : Env) (pdrv sector count : Nat) (w : World) :
    Nat × List Nat × World :=
  if pdrv ≠ 0 ∨ count = 0 then (RES_PARERR, [], w)
  else if w.st.stat &&& STA_NOINIT ≠ 0 then (RES_NOTRDY, [], w)
  else
    let sect :=
      if w.st.cardType &&& CT_BLOCK = 0 then sector * 512 % 4294967296
      else sector % 4294967296
    if count = 1 then
      let (r, w) := send_cmd env 17 sect w
      if r = 0 then
        let (ok, data, w) := rcvr_datablock env 512 w
        let rem := if ok then 0 else 1
        let w := mmc_deselect env w
        (if rem ≠ 0 then RES_ERROR else RES_OK, data, w)
      else
        let w := mmc_deselect env w
        (RES_ERROR, [], w)
    else
      let (r, w) := send_cmd env 18 sect w
      if r = 0 then
        let (rem, data, w) := readLoopAux env count [] w
        let (_, w) := send_cmd env 12 0 w
        let w := mmc_deselect env w
        (if rem ≠ 0 then RES_ERROR else RES_OK, data, w)
      else
        let w := mmc_deselect env w
        (RES_ERROR, [], w)

/-- The multi-block write loop of `disk_write`: a do-while over the remaining
count, transmitting one frame per iteration with the multi-block token 0xFC
from successive 512-byte buffer regions, breaking on the first failure;
returns the remaining count (0 on full success). -/
def writeLoopAux (env : Env) (buff : Nat → Nat) : Nat → Nat → World → Nat × World
  | 0, _, w => (0, w)
  | count + 1, off, w =>
      let (ok, w') := xmit_datablock env buff off 0xFC w
      if ok then
        if count ≠ 0 then writeLoopAux env buff count (off + 512) w'
        else (0, w')
      else (count + 1, w')

/-- The multi-block branch of `disk_write`: optional pre-erase hint ACMD23
for SD cards, CMD25, the block loop, and one stop-token transmission attempt
whose failure forces the error result. -/
def multiWrite (env : Env) (buff : Nat → Nat) (sect count : Nat) (w : World) :
    Nat × World :=
  let w := if w.st.cardType &&& CT_SDC ≠ 0 then (send_cmd env ACMD23 count w).2 else w
  let (r, w) := send_cmd env 25 sect w
  if r = 0 then
    let (rem, w) := writeLoopAux env buff count 0 w
    let (okStop, w) := xmit_datablock env (fun _ => 0) 0 0xFD w
    (if okStop then rem else 1, w)
  else (count, w)

/-- Write sectors (`disk_write`).  The C buffer pointer becomes the function
`buff` from byte offsets to bytes. -/
def disk_write (env : Env) (pdrv : Nat) (buff : Nat → Nat) (sector count : Nat)
    (w : World) : Nat × World :=
  if pdrv ≠ 0 ∨ count = 0 then (RES_PARERR, w)
  else if w.st.stat &&& STA_NOINIT ≠ 0 then (RES_NOTRDY, w)
  else if w.st.stat &&& STA_PROTECT ≠ 0 then (RES_WRPRT, w)
  else
    let sect :=
      if w.st.cardType &&& CT_BLOCK = 0 then sector * 512 % 4294967296
      else sector % 4294967296
    if count = 1 then
      let (r, w) := send_cmd env 24 sect w
      let (rem, w) :=
        if r = 0 then
          let (ok, w) := xmit_datablock env buff 0 0xFE w
          (if ok then 0 else 1, w)
        else (1, w)
      let w := mmc_deselect env w
      (if rem ≠ 0 then RES_ERROR else RES_OK, w)
    else
      let (rem, w) := multiWrite env buff sect count w
      let w := mmc_deselect env w
      (if rem ≠ 0 then RES_ERROR else RES_OK, w)

/-- The GET_SECTOR_COUNT decode of `disk_ioctl`, as a function of the 16 CSD
bytes (missing indices read as 0).  `csz` is a C `DWORD`, so the final shift
is truncated modulo 2^32; in the version-0 branch the C shift amount `n - 9`
is computed in `int` and is undefined behaviour for n < 9 (unreachable for a
well-formed CSD) — the embedding uses truncated natural subtraction there. -/
def csdSectorCount (csd : List Nat) : Nat :=
  let b := fun i => csd.getD i 0
  if b 0 >>> 6 = 1 then
    let csz := b 9 + (b 8 <<< 8) + ((b 7 &&& 63) <<< 16) + 1
    csz <<< 10 % 4294967296
  else
    let n := (b 5 &&& 15) + ((b 10 &&& 128) >>> 7) + ((b 9 &&& 3) <<< 1) + 2
    let csz := (b 8 >>> 6) + (b 7 <<< 2) + ((b 6 &&& 3) <<< 10) + 1
    csz <<< (n - 9) % 4294967296

/-- The sector-count decode exactly as the specification sentence states it
(claim C7), with unbounded natural arithmetic and no 32-bit truncation. -/
def sectorCountSpec (csd : List Nat) : Nat :=
  let b := fun i => csd.getD i 0
  if b 0 >>> 6 = 1 then
    (b 9 + (b 8 <<< 8) + ((b 7 &&& 63) <<< 16) + 1) <<< 10
  else
    let n := (b 5 &&& 15) + ((b 10 &&& 128) >>> 7) + ((b 9 &&& 3) <<< 1) + 2
    let csz := (b 8 >>> 6) + (b 7 <<< 2) + ((b 6 &&& 3) <<< 10)
    (csz + 1) <<< (n - 9)

/-- The non-byte outputs an ioctl writes through its buffer pointer. -/
inductive IoctlOut where
  /-- Nothing was written. -/
  | nothing : IoctlOut
  /-- A numeric value (sector count, block size). -/
  | num (v : Nat) : IoctlOut
  /-- Raw bytes (card type, CSD, CID, OCR, SD status). -/
  | bytes (bs : List Nat) : IoctlOut
deriving DecidableEq, Repr

/-- The CTRL_SYNC case of `disk_ioctl`: select the card (which waits for
ready internally). -/
def ioctl_sync (env : Env) (w : World) : Nat × IoctlOut × World :=
  let (ok, w) := mmc_select env w
  (if ok then RES_OK else RES_ERROR, IoctlOut.nothing, w)

/-- The GET_SECTOR_COUNT case of `disk_ioctl`: read the CSD with CMD9 and
decode the sector count. -/
def ioctl_sector_count (env : Env) (w : World) : Nat × IoctlOut × World :=
  let (r, w) := send_cmd env 9 0 w
  if r = 0 then
    let (ok, csd, w) := rcvr_datablock env 16 w
    if ok then (RES_OK, IoctlOut.num (csdSectorCount csd), w)
    else (RES_ERROR, IoctlOut.nothing, w)
  else (RES_ERROR, IoctlOut.nothing, w)

/-- The GET_BLOCK_SIZE case of `disk_ioctl`: for SDv2 read the SD status
block (ACMD13, 16 of 64 bytes, purging the rest) and decode the
allocation-unit nibble; otherwise read the CSD and decode the erase-sector
(SDv1) or write-group (MMC) fields.  The SDv1 shift amount
`(csd[13] >> 6) - 1` is C `int` arithmetic, undefined for a zero field;
the embedding uses truncated natural subtraction. -/
def ioctl_block_size (env : Env) (w : World) : Nat × IoctlOut × World :=
  if w.st.cardType &&& CT_SD2 ≠ 0 then
    let (r, w) := send_cmd env ACMD13 0 w
    if r = 0 then
      let (_, w) := xchg env 0xFF w
      let (ok, csd, w) := rcvr_datablock env 16 w
      if ok then
        let w := clocks env 48 w
        (RES_OK, IoctlOut.num (16 <<< (csd.getD 10 0 >>> 4) % 4294967296), w)
      else (RES_ERROR, IoctlOut.nothing, w)
    else (RES_ERROR, IoctlOut.nothing, w)
  else
    let (r, w) := send_cmd env 9 0 w
    if r = 0 then
      let (ok, csd, w) := rcvr_datablock env 16 w
      if ok then
        let b := fun i => csd.getD i 0
        if w.st.cardType &&& CT_SD1 ≠ 0 then
          (RES_OK,
            IoctlOut.num
              ((((b 10 &&& 63) <<< 1) + ((b 11 &&& 128) >>> 7) + 1) <<<
                ((b 13 >>> 6) - 1) % 4294967296), w)
        else
          (RES_OK,
            IoctlOut.num
              ((((b 10 &&& 124) >>> 2) + 1) *
                (((b 11 &&& 3) <<< 3) + ((b 11 &&& 224) >>> 5) + 1) %
                4294967296), w)
      else (RES_ERROR, IoctlOut.nothing, w)
    else (RES_ERROR, IoctlOut.nothing, w)

/-- The MMC_GET_CSD / MMC_GET_CID cases of `disk_ioctl`: read a 16-byte
register block after the given command. -/
def ioctl_get_reg (env : Env) (cmd : Nat) (w : World) : Nat × IoctlOut × World :=
  let (r, w) := send_cmd env cmd 0 w
  if r = 0 then
    let (ok, reg, w) := rcvr_datablock env 16 w
    if ok then (RES_OK, IoctlOut.bytes reg, w)
    else (RES_ERROR, IoctlOut.nothing, w)
  else (RES_ERROR, IoctlOut.nothing, w)

/-- The MMC_GET_OCR case of `disk_ioctl`: four raw bytes after CMD58. -/
def ioctl_get_ocr (env : Env) (w : World) : Nat × IoctlOut × World :=
  let (r, w) := send_cmd env 58 0 w
  if r = 0 then
    let (o0, w) := xchg env 0xFF w
    let (o1, w) := xchg env 0xFF w
    let (o2, w) := xchg env 0xFF w
    let (o3, w) := xchg env 0xFF w
    (RES_OK, IoctlOut.bytes [o0, o1, o2, o3], w)
  else (RES_ERROR, IoctlOut.nothing, w)

/-- The MMC_GET_SDSTAT case of `disk_ioctl`: for SD cards only, the 64-byte
status block after ACMD13. -/
def ioctl_sdstat (env : Env) (w : World) : Nat × IoctlOut × World :=
  if w.st.cardType &&& CT_SD2 ≠ 0 then
    let (r, w) := send_cmd env ACMD13 0 w
    if r = 0 then
      let (_, w) := xchg env 0xFF w
      let (ok, dat, w) := rcvr_datablock env 64 w
      if ok then (RES_OK, IoctlOut.bytes dat, w)
      else (RES_ERROR, IoctlOut.nothing, w)
    else (RES_ERROR, IoctlOut.nothing, w)
  else (RES_ERROR, IoctlOut.nothing, w)

/-- Miscellaneous control operations (`disk_ioctl`).  All switch cases fall
through to a final deselect; an unknown code is a parameter error. -/
def disk_ioctl (env : Env) (pdrv cmd : Nat) (w : World) : Nat × IoctlOut × World :=
  if pdrv ≠ 0 then (RES_PARERR, IoctlOut.nothing, w)
  else if w.st.stat &&& STA_NOINIT ≠ 0 then (RES_NOTRDY, IoctlOut.nothing, w)
  else
    let (res, out, w) :=
      if cmd = CTRL_SYNC then ioctl_sync env w
      else if cmd = GET_SECTOR_COUNT then ioctl_sector_count env w
      else if cmd = GET_BLOCK_SIZE then ioctl_block_size env w
      else if cmd = MMC_GET_TYPE then
        (RES_OK, IoctlOut.bytes [w.st.cardType % 256], w)
      else if cmd = MMC_GET_CSD then ioctl_get_reg env 9 w
      else if cmd = MMC_GET_CID then ioctl_get_reg env 10 w
      else if cmd = MMC_GET_OCR then ioctl_get_ocr env w
      else if cmd = MMC_GET_SDSTAT then ioctl_sdstat env w
      else (RES_PARERR, IoctlOut.nothing, w)
    let w := mmc_deselect env w
    (res, out, w)

/-- Number of `dtoken` markers with the given token value in a trace. -/
def tokenCount (t : Nat) : List Ev → Nat
  | [] => 0
  | Ev.dtoken b :: es => (if b = t then 1 else 0) + tokenCount t es
  | _ :: es => tokenCount t es

/-- Number of `setType` markers (writes of `CardType`) in a trace. -/
def setTypeCount : List Ev → Nat
  | [] => 0
  | Ev.setType _ :: es => 1 + setTypeCount es
  | _ :: es => setTypeCount es

/-- The initial world: the C static initializers (`Stat = STA_NOINIT`,
timers and `CardType` zero) and an empty session. -/
def initialWorld : World :=
  { st := { stat := STA_NOINIT, timer1 := 0, timer2 := 0, cardType := 0 }
    idx := 0
    trace := [] }

/-- One step of the driver's external interface: a tick of the time base or
one public operation under an arbitrary environment.  `disk_status` and
`get_fattime` are pure and would be identity steps. -/
inductive Step : World → World → Prop where
  /-- The 1 kHz time base invokes the tick handler. -/
  | tick (w : World) : Step w { w with st := disk_timerproc w.st }
  /-- A call to the initialization entry point. -/
  | init (env : Env) (pdrv : Nat) (w : World) : Step w (disk_init env pdrv w).2
  /-- A call to `disk_read`. -/
  | read (env : Env) (pdrv sector count : Nat) (w : World) :
      Step w (disk_read env pdrv sector count w).2.2
  /-- A call to `disk_write`. -/
  | write (env : Env) (pdrv : Nat) (buff : Nat → Nat) (sector count : Nat)
      (w : World) : Step w (disk_write env pdrv buff sector count w).2
  /-- A call to `disk_ioctl`. -/
  | ioctl (env : Env) (pdrv cmd : Nat) (w : World) :
      Step w (disk_ioctl env pdrv cmd w).2.2

/-- Worlds reachable from the initial world by any sequence of operations
and ticks. -/
def Reachable (w : World) : Prop :=
  Relation.ReflTransGen Step initialWorld w

/-- Frame relation between the worlds before and after a driver action that
never writes `CardType` and whose only status writes are the tick handler's
clears: the card type and the not-initialized bit are unchanged, the
write-protected bit is zero afterwards unless the status is untouched, and
no `CardType`-write marker is added. -/
def Tame (w w' : World) : Prop :=
  w'.st.cardType = w.st.cardType ∧
  w'.st.stat &&& STA_NOINIT = w.st.stat &&& STA_NOINIT ∧
  (w'.st.stat &&& STA_PROTECT = 0 ∨ w'.st.stat = w.st.stat) ∧
  setTypeCount w'.trace = setTypeCount w.trace

/-- `Tame` strengthened with token-transparency: the action transmits no
data-block token at all.  This holds for the whole command layer. -/
def Quiet (w w' : World) : Prop :=
  Tame w w' ∧ ∀ t, tokenCount t w'.trace = tokenCount t w.trace

/-- The conclusion of the amended claim C2, at a multi-block `disk_write`
whose guards passed and whose CMD25 was accepted: the operation factors into
the block loop, exactly one stop-token transmission attempt, and a final
deselect; it returns OK exactly when every block succeeded and the stop
attempt succeeded; the loop itself never transmits the stop token 0xFD; the
stop attempt transmits it exactly once when the card reports ready within
the budget and never otherwise; the loop transmits at most one 0xFC frame
per block; and a 0xFC frame transmission succeeds exactly when the card
reported ready and then answered a data response whose low five bits are
0b00101. -/
def C2Post (env : Env) (buff : Nat → Nat) (sector count : Nat) (w : World) :
    Prop :=
  let sect :=
    if w.st.cardType &&& CT_BLOCK = 0 then sector * 512 % 4294967296
    else sector % 4294967296
  let wA :=
    if w.st.cardType &&& CT_SDC ≠ 0 then (send_cmd env ACMD23 count w).2 else w
  let w1 := (send_cmd env 25 sect wA).2
  let L := writeLoopAux env buff count 0 w1
  let S := xmit_datablock env (fun _ => 0) 0 0xFD L.2
  disk_write env 0 buff sector count w =
    (if (if S.1 then L.1 else 1) ≠ 0 then RES_ERROR else RES_OK,
      mmc_deselect env S.2) ∧
  ((disk_write env 0 buff sector count w).1 = RES_OK ↔
    L.1 = 0 ∧ S.1 = true) ∧
  tokenCount 0xFD L.2.trace = tokenCount 0xFD w1.trace ∧
  tokenCount 0xFD S.2.trace =
    tokenCount 0xFD L.2.trace +
      (if (wait_ready env L.2).1 = true then 1 else 0) ∧
  tokenCount 0xFC L.2.trace ≤ tokenCount 0xFC w1.trace + count ∧
  tokenCount 0xFD (mmc_deselect env S.2).trace = tokenCount 0xFD S.2.trace ∧
  (∀ off w', (xmit_datablock env buff off 0xFC w').1 = true ↔
    ((wait_ready env w').1 = true ∧
      env.card ((wait_ready env w').2.idx + 515) % 256 &&& 0x1F = 0x05))

/-! ## Theorems -/

/-- C1: `disk_read` and `disk_write` reject a drive index other than 0 or a
zero count with the parameter-error result, reject the not-initialized state
with the not-ready result, and (`disk_write` only) the write-protected state
with the write-protected result — in each case returning the world unchanged,
hence before any bus transfer and mutating no driver state. -/
theorem guards_c1 (env : Env) (pdrv : Nat) (buff : Nat → Nat)
    (sector count : Nat) (w : World) :
    (pdrv ≠ 0 ∨ count = 0 →
      disk_read env pdrv sector count w = (RES_PARERR, [], w) ∧
      disk_write env pdrv buff sector count w = (RES_PARERR, w)) ∧
    (pdrv = 0 → count ≠ 0 → w.st.stat &&& STA_NOINIT ≠ 0 →
      disk_read env pdrv sector count w = (RES_NOTRDY, [], w) ∧
      disk_write env pdrv buff sector count w = (RES_NOTRDY, w)) ∧
    (pdrv = 0 → count ≠ 0 → w.st.stat &&& STA_NOINIT = 0 →
      w.st.stat &&& STA_PROTECT ≠ 0 →
      disk_write env pdrv buff sector count w = (RES_WRPRT, w)) := by
  refine ⟨fun h => ?_, fun h1 h2 h3 => ?_, fun h1 h2 h3 h4 => ?_⟩
  · constructor
    · unfold disk_read; rw [if_pos h]
    · unfold disk_write; rw [if_pos h]
  · have hp : ¬(pdrv ≠ 0 ∨ count = 0) := by simp [h1, h2]
    constructor
    · unfold disk_read; rw [if_neg hp, if_pos h3]
    · unfold disk_write; rw [if_neg hp, if_pos h3]
  · have hp : ¬(pdrv ≠ 0 ∨ count = 0) := by simp [h1, h2]
    unfold disk_write
    rw [if_neg hp, if_neg (by simp [h3]), if_pos h4]

/-- Witness for C1 at concrete inputs: bad drive index, not-initialized
state, and write-protected state. -/
theorem guards_c1_witness :
    disk_read ⟨fun _ => 0⟩ 1 0 1 initialWorld = (RES_PARERR, [], initialWorld) ∧
    disk_write ⟨fun _ => 0⟩ 0 (fun _ => 0) 0 1 initialWorld =
      (RES_NOTRDY, initialWorld) ∧
    disk_write ⟨fun _ => 0⟩ 0 (fun _ => 0) 0 1
        ⟨⟨4, 0, 0, 0⟩, 0, []⟩ = (RES_WRPRT, ⟨⟨4, 0, 0, 0⟩, 0, []⟩) :=
  ⟨((guards_c1 _ 1 (fun _ => 0) 0 1 _).1 (by decide)).1,
   ((guards_c1 _ 0 _ 0 1 _).2.1 rfl (by decide) (by decide)).2,
   (guards_c1 _ 0 _ 0 1 _).2.2 rfl (by decide) (by decide) (by decide)⟩

/-- C10: with the no-disk flag set, the initialization entry point returns
the current status bitmask at once, with the world (state, exchange count,
trace) unchanged. -/
theorem nodisk_c10 (env : Env) (w : World)
    (h : w.st.stat &&& STA_NODISK ≠ 0) :
    disk_init env 0 w = (w.st.stat, w) := by
  unfold disk_init
  rw [if_neg (by simp), if_pos h]

/-- Witness for C10: a state with `STA_NODISK` and `STA_NOINIT` set and
running timers is returned untouched. -/
theorem nodisk_c10_witness :
    disk_init ⟨fun _ => 0⟩ 0 ⟨⟨3, 5, 7, 0⟩, 2, []⟩ =
      (3, ⟨⟨3, 5, 7, 0⟩, 2, []⟩) :=
  nodisk_c10 _ _ (by decide)

/-- C7 counterexample: on the CSD whose version field is 1 and whose C_SIZE
bytes are maximal (csd[7] & 63 = 63, csd[8] = csd[9] = 255), the driver's
32-bit decode wraps to 0 while the claim's untruncated formula gives 2^32;
a full GET_SECTOR_COUNT ioctl run against a card serving exactly this CSD
indeed reports sector count 0. -/
theorem sector_count_c7_cex :
    csdSectorCount [64, 0, 0, 0, 0, 0, 0, 63, 255, 255, 0, 0, 0, 0, 0, 0] = 0 ∧
    sectorCountSpec [64, 0, 0, 0, 0, 0, 0, 63, 255, 255, 0, 0, 0, 0, 0, 0] =
      4294967296 ∧
    (disk_ioctl
        ⟨fun i =>
          if i = 9 then 0 else if i = 10 then 0xFE else if i = 11 then 64
          else if i = 18 then 63 else if i = 19 then 255
          else if i = 20 then 255
          else if 12 ≤ i ∧ i ≤ 26 then 0 else 0xFF⟩
        0 GET_SECTOR_COUNT ⟨⟨0, 0, 0, 0⟩, 0, []⟩).2.1 = IoctlOut.num 0 := by
  refine ⟨by decide, by decide, by decide⟩

/-- C7 amended: the GET_SECTOR_COUNT decode equals the claim's two
version-dependent formulas truncated modulo 2^32 (the computation is
performed in a 32-bit unsigned variable), for every CSD content. -/
theorem sector_count_c7 (csd : List Nat) :
    csdSectorCount csd = sectorCountSpec csd % 4294967296 := by
  simp only [csdSectorCount, sectorCountSpec]
  split
  next => rfl
  next => rfl

/-! ### Unfolding and loop lemmas -/

/-- One exchange, written out: the received byte, the ticked state, the
bumped index, and the recorded event. -/
theorem xchg_eq (env : Env) (b : Nat) (w : World) :
    xchg env b w =
      (env.card w.idx % 256,
        ⟨⟨(w.st.stat &&& 0xFB) &&& 0xFD, w.st.timer1 - 1, w.st.timer2 - 1,
            w.st.cardType⟩, w.idx + 1,
          Ev.xchg (b % 256) (env.card w.idx % 256) :: w.trace⟩) := rfl

/-- If some exchange within the fuel budget answers 0xFF, the ready-wait
loop succeeds. -/
theorem waitReadyAux_succ (env : Env) :
    ∀ (f : Nat) (w : World), w.st.timer2 = f →
      (∃ k, k < f ∧ env.card (w.idx + k) % 256 = 0xFF) →
      (waitReadyAux env f w).1 = 0xFF := by
  intro f
  induction f with
  | zero => intro w _ h; obtain ⟨k, hk, _⟩ := h; omega
  | succ f ih =>
    intro w ht h
    by_cases h0 : env.card w.idx % 256 = 0xFF
    · simp [waitReadyAux, xchg_eq, h0]
    · obtain ⟨k, hk, hFF⟩ := h
      obtain ⟨k', rfl⟩ : ∃ k', k = k' + 1 := by
        cases k with
        | zero => exact absurd (by simpa using hFF) h0
        | succ k' => exact ⟨k', rfl⟩
      have hf : f ≠ 0 := by omega
      simp only [waitReadyAux, xchg_eq]
      rw [if_pos ⟨h0, by simp [ht]; omega⟩]
      exact ih _ (by simp [ht]) ⟨k', by omega, by
        have : w.idx + 1 + k' = w.idx + (k' + 1) := by omega
        simpa [this] using hFF⟩

/-- If no exchange within the fuel budget answers 0xFF, the ready-wait loop
runs its full budget: the last byte read is the one at offset f - 1, exactly
f exchanges (= f ticks) happen, and the timer ends at zero. -/
theorem waitReadyAux_timeout (env : Env) :
    ∀ (f : Nat) (w : World), 1 ≤ f → w.st.timer2 = f →
      (∀ k, k < f → env.card (w.idx + k) % 256 ≠ 0xFF) →
      (waitReadyAux env f w).1 = env.card (w.idx + (f - 1)) % 256 ∧
      (waitReadyAux env f w).2.idx = w.idx + f ∧
      (waitReadyAux env f w).2.st.timer2 = 0 := by
  intro f
  induction f with
  | zero => omega
  | succ f ih =>
    intro w _ ht hno
    by_cases hf : f = 0
    · subst hf
      have h0 : env.card w.idx % 256 ≠ 0xFF := by simpa using hno 0 (by omega)
      simp only [waitReadyAux, xchg_eq]
      rw [if_neg (by simp [ht])]
      simp [ht]
    · have h0 : env.card w.idx % 256 ≠ 0xFF := by simpa using hno 0 (by omega)
      simp only [waitReadyAux, xchg_eq]
      rw [if_pos ⟨h0, by simp [ht]; omega⟩]
      have := ih ⟨⟨(w.st.stat &&& 0xFB) &&& 0xFD, w.st.timer1 - 1,
          w.st.timer2 - 1, w.st.cardType⟩, w.idx + 1,
          Ev.xchg (0xFF % 256) (env.card w.idx % 256) :: w.trace⟩
        (by omega) (by simp [ht])
        (by
          intro k hk
          have : w.idx + 1 + k = w.idx + (k + 1) := by omega
          rw [this]
          exact hno (k + 1) (by omega))
      refine ⟨?_, ?_, ?_⟩
      · rw [this.1]
        dsimp only
        have hx : w.idx + 1 + (f - 1) = w.idx + (f + 1 - 1) := by omega
        rw [hx]
      · rw [this.2.1]
        dsimp only
        omega
      · exact this.2.2

/-- C3: `wait_ready` arms the data-wait timer to 500 ticks and polls filler
exchanges; it succeeds exactly when the card answers 0xFF within the budget,
and when the card never does, it fails after exactly the 500-tick budget
(500 exchanges, one tick each, timer at zero) — not before and not
indefinitely; the tick handler decrements each timer once with a floor at
zero. -/
theorem wait_ready_c3 (env : Env) (w : World) :
    ((wait_ready env w).1 = true ↔
      ∃ k, k < 500 ∧ env.card (w.idx + k) % 256 = 0xFF) ∧
    ((∀ k, k < 500 → env.card (w.idx + k) % 256 ≠ 0xFF) →
      (wait_ready env w).1 = false ∧
      (wait_ready env w).2.idx = w.idx + 500 ∧
      (wait_ready env w).2.st.timer2 = 0) ∧
    (∀ s : DriverState, (disk_timerproc s).timer2 = s.timer2 - 1 ∧
      (disk_timerproc s).timer1 = s.timer1 - 1) := by
  have harm :
      wait_ready env w =
        ((waitReadyAux env 500 { w with st := { w.st with timer2 := 500 } }).1
            == 0xFF,
          (waitReadyAux env 500 { w with st := { w.st with timer2 := 500 } }).2) :=
    rfl
  refine ⟨⟨fun hs => ?_, fun hex => ?_⟩, fun hno => ?_, fun s => ⟨rfl, rfl⟩⟩
  · by_contra hex
    push_neg at hex
    have := waitReadyAux_timeout env 500
      { w with st := { w.st with timer2 := 500 } } (by omega) rfl
      (fun k hk => hex k hk)
    rw [harm] at hs
    rw [this.1] at hs
    exact hex 499 (by omega) (by simpa using hs)
  · rw [harm]
    have := waitReadyAux_succ env 500
      { w with st := { w.st with timer2 := 500 } } rfl hex
    simp [this]
  · have := waitReadyAux_timeout env 500
      { w with st := { w.st with timer2 := 500 } } (by omega) rfl
      (fun k hk => hno k hk)
    refine ⟨?_, this.2.1, this.2.2⟩
    rw [harm]
    simp only [this.1]
    simpa using hno 499 (by omega)

set_option maxRecDepth 4096 in
/-- Witness for C3: a card that never reports ready makes `wait_ready` fail
after exactly the 500-tick budget. -/
theorem wait_ready_c3_witness :
    (wait_ready ⟨fun _ => 0⟩ initialWorld).1 = false ∧
    (wait_ready ⟨fun _ => 0⟩ initialWorld).2.idx = 0 + 500 ∧
    (wait_ready ⟨fun _ => 0⟩ initialWorld).2.st.timer2 = 0 :=
  (wait_ready_c3 ⟨fun _ => 0⟩ initialWorld).2.1 (by decide)

/-- The data-token wait loop exits at the first exchange answering a byte
other than the filler 0xFF, provided it happens within the fuel budget,
returning that byte. -/
theorem tokenWaitAux_first (env : Env) :
    ∀ (f : Nat) (w : World) (k : Nat), w.st.timer1 = f → k < f →
      (∀ j, j < k → env.card (w.idx + j) % 256 = 0xFF) →
      env.card (w.idx + k) % 256 ≠ 0xFF →
      (tokenWaitAux env f w).1 = env.card (w.idx + k) % 256 ∧
      (tokenWaitAux env f w).2.idx = w.idx + k + 1 := by
  intro f
  induction f with
  | zero => intro w k _ hk _ _; omega
  | succ f ih =>
    intro w k ht hk hpre hnk
    cases k with
    | zero =>
      have hnk' : env.card w.idx % 256 ≠ 0xFF := by simpa using hnk
      simp only [tokenWaitAux, xchg_eq]
      rw [if_neg (fun hc => hnk' hc.1)]
      exact ⟨by simp, by simp⟩
    | succ k' =>
      have h0 : env.card w.idx % 256 = 0xFF := by simpa using hpre 0 (by omega)
      have hf : f ≠ 0 := by omega
      simp only [tokenWaitAux, xchg_eq]
      rw [if_pos ⟨by simpa using h0, by omega⟩]
      have := ih ⟨⟨(w.st.stat &&& 0xFB) &&& 0xFD, w.st.timer1 - 1,
          w.st.timer2 - 1, w.st.cardType⟩, w.idx + 1,
          Ev.xchg (0xFF % 256) (env.card w.idx % 256) :: w.trace⟩ k'
        (by dsimp only; omega) (by omega)
        (by
          intro j hj
          have hx : w.idx + 1 + j = w.idx + (j + 1) := by omega
          dsimp only
          rw [hx]
          exact hpre (j + 1) (by omega))
        (by
          have hx : w.idx + 1 + k' = w.idx + (k' + 1) := by omega
          dsimp only
          rw [hx]
          exact hnk)
      refine ⟨?_, ?_⟩
      · rw [this.1]
        dsimp only
        have hx : w.idx + 1 + k' = w.idx + (k' + 1) := by omega
        rw [hx]
      · rw [this.2]
        dsimp only
        omega

/-- If every exchange within the fuel budget answers the filler 0xFF, the
data-token wait loop runs its full budget and returns 0xFF with the timer
at zero. -/
theorem tokenWaitAux_timeout (env : Env) :
    ∀ (f : Nat) (w : World), 1 ≤ f → w.st.timer1 = f →
      (∀ k, k < f → env.card (w.idx + k) % 256 = 0xFF) →
      (tokenWaitAux env f w).1 = 0xFF ∧
      (tokenWaitAux env f w).2.idx = w.idx + f ∧
      (tokenWaitAux env f w).2.st.timer1 = 0 := by
  intro f
  induction f with
  | zero => omega
  | succ f ih =>
    intro w _ ht hall
    have h0 : env.card w.idx % 256 = 0xFF := by simpa using hall 0 (by omega)
    by_cases hf : f = 0
    · subst hf
      simp only [tokenWaitAux, xchg_eq]
      rw [if_neg (by simp [ht])]
      exact ⟨by simpa using h0, rfl, by simp [ht]⟩
    · simp only [tokenWaitAux, xchg_eq]
      rw [if_pos ⟨by simpa using h0, by omega⟩]
      have := ih ⟨⟨(w.st.stat &&& 0xFB) &&& 0xFD, w.st.timer1 - 1,
          w.st.timer2 - 1, w.st.cardType⟩, w.idx + 1,
          Ev.xchg (0xFF % 256) (env.card w.idx % 256) :: w.trace⟩
        (by omega) (by dsimp only; omega)
        (by
          intro j hj
          have hx : w.idx + 1 + j = w.idx + (j + 1) := by omega
          dsimp only
          rw [hx]
          exact hall (j + 1) (by omega))
      refine ⟨this.1, ?_, this.2.2⟩
      rw [this.2.1]
      dsimp only
      omega

/-- The successor equation of the burst receive, with the pair spelled out. -/
theorem rcvr_spi_multi_succ (env : Env) (n : Nat) (w : World) :
    rcvr_spi_multi env (n + 1) w =
      ((xchg env 0xFF w).1 :: (rcvr_spi_multi env n (xchg env 0xFF w).2).1,
        (rcvr_spi_multi env n (xchg env 0xFF w).2).2) := rfl

/-- The burst receive returns exactly the next `n` oracle bytes and advances
the exchange index by `n`. -/
theorem rcvr_spi_multi_spec (env : Env) :
    ∀ (n : Nat) (w : World),
      (rcvr_spi_multi env n w).1 =
        (List.range n).map (fun i => env.card (w.idx + i) % 256) ∧
      (rcvr_spi_multi env n w).2.idx = w.idx + n := by
  intro n
  induction n with
  | zero => intro w; exact ⟨rfl, rfl⟩
  | succ n ih =>
    intro w
    rw [rcvr_spi_multi_succ]
    refine ⟨?_, ?_⟩
    · show (xchg env 0xFF w).1 :: (rcvr_spi_multi env n (xchg env 0xFF w).2).1 = _
      rw [(ih (xchg env 0xFF w).2).1]
      rw [List.range_succ_eq_map]
      simp only [List.map_cons, List.map_map, xchg_eq]
      congr 1
      exact List.map_congr_left fun i _ => by
        have hx : w.idx + 1 + i = w.idx + (i + 1) := by omega
        simp [Function.comp, hx]
    · show (rcvr_spi_multi env n (xchg env 0xFF w).2).2.idx = _
      rw [(ih (xchg env 0xFF w).2).2]
      rw [xchg_eq]
      dsimp only
      omega

/-- The receive-block function with its lets spelled out as projections. -/
theorem rcvr_datablock_eq (env : Env) (btr : Nat) (w : World) :
    rcvr_datablock env btr w =
      (if (tokenWaitAux env 100 { w with st := { w.st with timer1 := 100 } }).1
          ≠ 0xFE then
        (false, [],
          (tokenWaitAux env 100 { w with st := { w.st with timer1 := 100 } }).2)
      else
        (true,
          (rcvr_spi_multi env btr
            (tokenWaitAux env 100
              { w with st := { w.st with timer1 := 100 } }).2).1,
          (xchg env 0xFF
            (xchg env 0xFF
              (rcvr_spi_multi env btr
                (tokenWaitAux env 100
                  { w with st := { w.st with timer1 := 100 } }).2).2).2).2)) := by
  simp only [rcvr_datablock]

/-- Projection: one exchange advances the index by one. -/
theorem xchg_snd_idx (env : Env) (b : Nat) (w : World) :
    (xchg env b w).2.idx = w.idx + 1 := rfl

/-- C4 counterexample: a card whose very first answer is 0x01 (neither the
filler 0xFF nor the start token 0xFE) makes `rcvr_datablock` fail after a
single exchange with 99 of the 100 armed ticks remaining — the claim's
"failing only on timer expiry" is false. -/
theorem rcvr_c4_cex :
    (rcvr_datablock ⟨fun _ => 1⟩ 16 initialWorld).1 = false ∧
    (rcvr_datablock ⟨fun _ => 1⟩ 16 initialWorld).2.2.st.timer1 = 99 ∧
    (rcvr_datablock ⟨fun _ => 1⟩ 16 initialWorld).2.2.idx = 1 := by
  refine ⟨by decide, by decide, by decide⟩

/-- C4 amended: `rcvr_datablock` arms its wait timer to 100 ticks and polls
filler exchanges until a non-filler byte arrives or the timer expires; it
succeeds exactly when the first non-filler byte within the budget is the
start token 0xFE (so it also fails on any other leading byte, not only on
timer expiry); on success it burst-receives `btr` oracle bytes as the buffer
contents and discards exactly two trailing CRC bytes; when the card sends
only filler it fails with the timer exhausted. -/
theorem rcvr_c4_amended (env : Env) (btr : Nat) (w : World) (_hb : 1 ≤ btr) :
    ((rcvr_datablock env btr w).1 = true ↔
      ∃ k, k < 100 ∧ env.card (w.idx + k) % 256 = 0xFE ∧
        ∀ j, j < k → env.card (w.idx + j) % 256 = 0xFF) ∧
    (∀ k, k < 100 → env.card (w.idx + k) % 256 = 0xFE →
      (∀ j, j < k → env.card (w.idx + j) % 256 = 0xFF) →
      (rcvr_datablock env btr w).1 = true ∧
      (rcvr_datablock env btr w).2.1 =
        (List.range btr).map (fun i => env.card (w.idx + k + 1 + i) % 256) ∧
      (rcvr_datablock env btr w).2.2.idx = w.idx + k + 1 + btr + 2) ∧
    ((∀ k, k < 100 → env.card (w.idx + k) % 256 = 0xFF) →
      (rcvr_datablock env btr w).1 = false ∧
      (rcvr_datablock env btr w).2.2.st.timer1 = 0) := by
  have main : ∀ k, k < 100 → env.card (w.idx + k) % 256 = 0xFE →
      (∀ j, j < k → env.card (w.idx + j) % 256 = 0xFF) →
      (rcvr_datablock env btr w).1 = true ∧
      (rcvr_datablock env btr w).2.1 =
        (List.range btr).map (fun i => env.card (w.idx + k + 1 + i) % 256) ∧
      (rcvr_datablock env btr w).2.2.idx = w.idx + k + 1 + btr + 2 := by
    intro k hk hFE hpre
    have hne : env.card (w.idx + k) % 256 ≠ 0xFF := by rw [hFE]; decide
    have hfirst := tokenWaitAux_first env 100
      { w with st := { w.st with timer1 := 100 } } k rfl hk hpre hne
    have hfe : ¬((tokenWaitAux env 100
        { w with st := { w.st with timer1 := 100 } }).1 ≠ 0xFE) := by
      rw [hfirst.1]
      simp only [ne_eq, not_not]
      exact hFE
    rw [rcvr_datablock_eq, if_neg hfe]
    refine ⟨rfl, ?_, ?_⟩
    · show (rcvr_spi_multi env btr
        (tokenWaitAux env 100 { w with st := { w.st with timer1 := 100 } }).2).1 = _
      rw [(rcvr_spi_multi_spec env btr _).1]
      simp only [hfirst.2]
    · show (xchg env 0xFF (xchg env 0xFF (rcvr_spi_multi env btr
        (tokenWaitAux env 100
          { w with st := { w.st with timer1 := 100 } }).2).2).2).2.idx = _
      rw [xchg_snd_idx, xchg_snd_idx, (rcvr_spi_multi_spec env btr _).2, hfirst.2]
  have tout : (∀ k, k < 100 → env.card (w.idx + k) % 256 = 0xFF) →
      (rcvr_datablock env btr w).1 = false ∧
      (rcvr_datablock env btr w).2.2.st.timer1 = 0 := by
    intro hall
    have hto := tokenWaitAux_timeout env 100
      { w with st := { w.st with timer1 := 100 } } (by omega) rfl hall
    rw [rcvr_datablock_eq, if_pos (by rw [hto.1]; decide)]
    exact ⟨rfl, hto.2.2⟩
  refine ⟨⟨?_, ?_⟩, main, tout⟩
  · intro hs
    by_cases hall : ∀ k, k < 100 → env.card (w.idx + k) % 256 = 0xFF
    · rw [(tout hall).1] at hs
      exact absurd hs (by decide)
    · push_neg at hall
      obtain ⟨k, hk, hne⟩ := hall
      have hex : ∃ m, m < 100 ∧ env.card (w.idx + m) % 256 ≠ 0xFF := ⟨k, hk, hne⟩
      have hm := Nat.find_spec hex
      have hmin : ∀ j, j < Nat.find hex →
          env.card (w.idx + j) % 256 = 0xFF := by
        intro j hj
        by_contra hcon
        exact Nat.find_min hex hj ⟨lt_trans hj hm.1, hcon⟩
      have hfirst := tokenWaitAux_first env 100
        { w with st := { w.st with timer1 := 100 } } (Nat.find hex) rfl hm.1
        hmin hm.2
      rw [rcvr_datablock_eq] at hs
      by_cases hfe : (tokenWaitAux env 100
          { w with st := { w.st with timer1 := 100 } }).1 ≠ 0xFE
      · rw [if_pos hfe] at hs
        simp at hs
      · push_neg at hfe
        refine ⟨Nat.find hex, hm.1, ?_, hmin⟩
        rw [← hfirst.1]
        exact hfe
  · rintro ⟨k, hk, hFE, hpre⟩
    exact (main k hk hFE hpre).1

/-- Witness for C4: a card answering the start token at once, then the byte
7, delivers a 4-byte block [7, 7, 7, 7] and ends 7 exchanges in (token, four
data bytes, two CRC bytes). -/
theorem rcvr_c4_witness :
    (rcvr_datablock ⟨fun i => if i = 0 then 0xFE else 7⟩ 4 initialWorld).1 =
      true ∧
    (rcvr_datablock ⟨fun i => if i = 0 then 0xFE else 7⟩ 4 initialWorld).2.1 =
      [7, 7, 7, 7] ∧
    (rcvr_datablock ⟨fun i => if i = 0 then 0xFE else 7⟩ 4
      initialWorld).2.2.idx = 7 := by
  have h := (rcvr_c4_amended ⟨fun i => if i = 0 then 0xFE else 7⟩ 4
    initialWorld (by decide)).2.1 0 (by decide) (by decide) (by omega)
  exact ⟨h.1, by rw [h.2.1]; decide, by rw [h.2.2]; decide⟩

/-- C8: for a command index carrying the application-command flag (bit 7),
`send_cmd` first issues the escape command CMD55 with argument 0; if that
escape's response exceeds 1 the response is returned at once with no further
bus activity (the run is exactly the escape's run, so the underlying frame is
never transmitted); otherwise the underlying command (index with the flag
stripped) is sent from the post-escape world. -/
theorem send_cmd_c8 (env : Env) (cmd arg : Nat) (w : World)
    (hflag : cmd &&& 0x80 ≠ 0) :
    ((send_cmd env 55 0 w).1 > 1 →
      send_cmd env cmd arg w = send_cmd env 55 0 w) ∧
    (¬(send_cmd env 55 0 w).1 > 1 →
      send_cmd env cmd arg w =
        send_cmd_core env (cmd &&& 0x7F) arg (send_cmd env 55 0 w).2) := by
  have h55 : send_cmd env 55 0 w = send_cmd_core env 55 0 w := rfl
  rw [h55]
  unfold send_cmd
  rw [if_pos hflag]
  rcases hc : send_cmd_core env 55 0 w with ⟨res, w2⟩
  constructor
  · intro hgt
    simp only at hgt ⊢
    rw [if_pos hgt]
  · intro hle
    simp only at hle ⊢
    rw [if_neg hle]

/-- Witness for C8: against an all-0xFF card the escape CMD55 yields the
no-response value 0xFF (which exceeds 1), so ACMD41 (0x80 + 41 = 169)
returns exactly the escape's run. -/
theorem send_cmd_c8_witness :
    send_cmd ⟨fun _ => 0xFF⟩ 169 0 initialWorld =
      send_cmd ⟨fun _ => 0xFF⟩ 55 0 initialWorld :=
  (send_cmd_c8 ⟨fun _ => 0xFF⟩ 169 0 initialWorld (by decide)).1 (by decide)

/-! ### Frame lemmas: the command layer writes no card type, no token
markers, and can only clear status bits -/

/-- A tick keeps the not-initialized bit. -/
theorem tickStat_noinit (x : Nat) : ((x &&& 0xFB) &&& 0xFD) &&& 1 = x &&& 1 := by
  rw [Nat.and_assoc, Nat.and_assoc]
  rfl

/-- A tick zeroes the write-protected bit. -/
theorem tickStat_prot (x : Nat) : ((x &&& 0xFB) &&& 0xFD) &&& 4 = 0 := by
  rw [Nat.and_assoc, Nat.and_assoc]
  show x &&& 0 = 0
  simp

/-- A tick zeroes the no-disk bit. -/
theorem tickStat_nodisk (x : Nat) : ((x &&& 0xFB) &&& 0xFD) &&& 2 = 0 := by
  rw [Nat.and_assoc, Nat.and_assoc]
  show x &&& 0 = 0
  simp

/-- `Tame` is reflexive. -/
theorem tame_refl (w : World) : Tame w w := ⟨rfl, rfl, Or.inr rfl, rfl⟩

/-- `Tame` composes. -/
theorem tame_trans {w1 w2 w3 : World} (h1 : Tame w1 w2) (h2 : Tame w2 w3) :
    Tame w1 w3 := by
  obtain ⟨a1, b1, c1, d1⟩ := h1
  obtain ⟨a2, b2, c2, d2⟩ := h2
  refine ⟨a2.trans a1, b2.trans b1, ?_, d2.trans d1⟩
  rcases c2 with h | h
  · exact Or.inl h
  · rw [h]
    exact c1

/-- `Quiet` is reflexive. -/
theorem quiet_refl (w : World) : Quiet w w :=
  ⟨tame_refl w, fun _ => rfl⟩

/-- `Quiet` composes. -/
theorem quiet_trans {w1 w2 w3 : World} (h1 : Quiet w1 w2) (h2 : Quiet w2 w3) :
    Quiet w1 w3 :=
  ⟨tame_trans h1.1 h2.1, fun t => (h2.2 t).trans (h1.2 t)⟩

/-- One exchange is `Quiet`: the tick clears the protect bit and keeps
everything else the frame tracks. -/
theorem quiet_xchg (env : Env) (b : Nat) (w : World) :
    Quiet w (xchg env b w).2 :=
  ⟨⟨rfl, tickStat_noinit w.st.stat, Or.inl (tickStat_prot w.st.stat), rfl⟩,
    fun _ => rfl⟩

/-- Recording a non-marker event is `Quiet`. -/
theorem quiet_pushEv (e : Ev) (w : World)
    (hset : setTypeCount (e :: w.trace) = setTypeCount w.trace)
    (htok : ∀ t, tokenCount t (e :: w.trace) = tokenCount t w.trace) :
    Quiet w (pushEv e w) :=
  ⟨⟨rfl, rfl, Or.inr rfl, hset⟩, htok⟩

/-- Recording a data-token marker is `Tame`. -/
theorem tame_push_dtoken (tok : Nat) (w : World) :
    Tame w (pushEv (Ev.dtoken tok) w) :=
  ⟨rfl, rfl, Or.inr rfl, rfl⟩

/-- Arming the data timer is `Quiet`. -/
theorem quiet_arm1 (v : Nat) (w : World) :
    Quiet w { w with st := { w.st with timer1 := v } } :=
  ⟨⟨rfl, rfl, Or.inr rfl, rfl⟩, fun _ => rfl⟩

/-- Arming the ready timer is `Quiet`. -/
theorem quiet_arm2 (v : Nat) (w : World) :
    Quiet w { w with st := { w.st with timer2 := v } } :=
  ⟨⟨rfl, rfl, Or.inr rfl, rfl⟩, fun _ => rfl⟩

/-- The ready-wait loop is `Quiet`. -/
theorem quiet_waitReadyAux (env : Env) :
    ∀ (f : Nat) (w : World), Quiet w (waitReadyAux env f w).2 := by
  intro f
  induction f with
  | zero => intro w; exact quiet_xchg env 0xFF w
  | succ f ih =>
    intro w
    simp only [waitReadyAux]
    split
    · exact quiet_trans (quiet_xchg env 0xFF w) (ih _)
    · exact quiet_xchg env 0xFF w

/-- `wait_ready` is `Quiet`. -/
theorem quiet_wait_ready (env : Env) (w : World) :
    Quiet w (wait_ready env w).2 :=
  quiet_trans (quiet_arm2 500 w) (quiet_waitReadyAux env 500 _)

/-- `mmc_deselect` is `Quiet`. -/
theorem quiet_mmc_deselect (env : Env) (w : World) :
    Quiet w (mmc_deselect env w) :=
  quiet_trans (quiet_pushEv Ev.csHigh w rfl fun _ => rfl) (quiet_xchg env 0xFF _)

/-- `mmc_select` is `Quiet`. -/
theorem quiet_mmc_select (env : Env) (w : World) :
    Quiet w (mmc_select env w).2 := by
  simp only [mmc_select]
  split
  · exact quiet_trans (quiet_pushEv Ev.csLow w rfl fun _ => rfl)
      (quiet_trans (quiet_xchg env 0xFF _) (quiet_wait_ready env _))
  · exact quiet_trans (quiet_pushEv Ev.csLow w rfl fun _ => rfl)
      (quiet_trans (quiet_xchg env 0xFF _)
        (quiet_trans (quiet_wait_ready env _) (quiet_mmc_deselect env _)))

/-- The data-token wait loop is `Quiet`. -/
theorem quiet_tokenWaitAux (env : Env) :
    ∀ (f : Nat) (w : World), Quiet w (tokenWaitAux env f w).2 := by
  intro f
  induction f with
  | zero => intro w; exact quiet_xchg env 0xFF w
  | succ f ih =>
    intro w
    simp only [tokenWaitAux]
    split
    · exact quiet_trans (quiet_xchg env 0xFF w) (ih _)
    · exact quiet_xchg env 0xFF w

/-- The burst receive is `Quiet`. -/
theorem quiet_rcvr_spi_multi (env : Env) :
    ∀ (n : Nat) (w : World), Quiet w (rcvr_spi_multi env n w).2 := by
  intro n
  induction n with
  | zero => intro w; exact quiet_refl w
  | succ n ih =>
    intro w
    rw [rcvr_spi_multi_succ]
    exact quiet_trans (quiet_xchg env 0xFF w) (ih _)

/-- The burst transmit is `Quiet`. -/
theorem quiet_xmit_spi_multi (env : Env) (buff : Nat → Nat) :
    ∀ (n off : Nat) (w : World), Quiet w (xmit_spi_multi env buff off n w) := by
  intro n
  induction n with
  | zero => intro off w; exact quiet_refl w
  | succ n ih =>
    intro off w
    show Quiet w (xmit_spi_multi env buff (off + 1) n (xchg env (buff off) w).2)
    exact quiet_trans (quiet_xchg env (buff off) w) (ih _ _)

/-- `rcvr_datablock` is `Quiet`. -/
theorem quiet_rcvr_datablock (env : Env) (btr : Nat) (w : World) :
    Quiet w (rcvr_datablock env btr w).2.2 := by
  rw [rcvr_datablock_eq]
  split
  · exact quiet_trans (quiet_arm1 100 w) (quiet_tokenWaitAux env 100 _)
  · exact quiet_trans (quiet_arm1 100 w)
      (quiet_trans (quiet_tokenWaitAux env 100 _)
        (quiet_trans (quiet_rcvr_spi_multi env btr _)
          (quiet_trans (quiet_xchg env 0xFF _) (quiet_xchg env 0xFF _))))

/-- The response poll is `Quiet`. -/
theorem quiet_respPoll (env : Env) :
    ∀ (n : Nat) (w : World), Quiet w (respPoll env n w).2 := by
  intro n
  induction n using Nat.strong_induction_on with
  | _ n ih =>
    intro w
    match n with
    | 0 => exact quiet_xchg env 0xFF w
    | 1 => exact quiet_xchg env 0xFF w
    | n + 2 =>
      simp only [respPoll]
      split
      · exact quiet_trans (quiet_xchg env 0xFF w) (ih (n + 1) (by omega) _)
      · exact quiet_xchg env 0xFF w

/-- The dummy-clock burst is `Quiet`. -/
theorem quiet_clocks (env : Env) :
    ∀ (n : Nat) (w : World), Quiet w (clocks env n w) := by
  intro n
  induction n with
  | zero => intro w; exact quiet_refl w
  | succ n ih =>
    intro w
    show Quiet w (clocks env n (xchg env 0xFF w).2)
    exact quiet_trans (quiet_xchg env 0xFF w) (ih _)

/-- Step combinator: append one exchange to a `Quiet` run. -/
theorem Quiet.step_xchg {w w' : World} (h : Quiet w w') (env : Env) (b : Nat) :
    Quiet w (xchg env b w').2 :=
  quiet_trans h (quiet_xchg env b w')

/-- Step combinator: append a chip-select-high event. -/
theorem Quiet.step_csHigh {w w' : World} (h : Quiet w w') :
    Quiet w (pushEv Ev.csHigh w') :=
  quiet_trans h (quiet_pushEv Ev.csHigh w' rfl fun _ => rfl)

/-- Step combinator: append a chip-select-low event. -/
theorem Quiet.step_csLow {w w' : World} (h : Quiet w w') :
    Quiet w (pushEv Ev.csLow w') :=
  quiet_trans h (quiet_pushEv Ev.csLow w' rfl fun _ => rfl)

/-- Step combinator: append a power-on event. -/
theorem Quiet.step_powerOn {w w' : World} (h : Quiet w w') :
    Quiet w (pushEv Ev.powerOn w') :=
  quiet_trans h (quiet_pushEv Ev.powerOn w' rfl fun _ => rfl)

/-- Step combinator: append a slow-clock event. -/
theorem Quiet.step_fclkSlow {w w' : World} (h : Quiet w w') :
    Quiet w (pushEv Ev.fclkSlow w') :=
  quiet_trans h (quiet_pushEv Ev.fclkSlow w' rfl fun _ => rfl)

/-- Step combinator: arm the data timer. -/
theorem Quiet.step_arm1 {w w' : World} (h : Quiet w w') (v : Nat) :
    Quiet w { w' with st := { w'.st with timer1 := v } } :=
  quiet_trans h (quiet_arm1 v w')

/-- Step combinator: arm the ready timer. -/
theorem Quiet.step_arm2 {w w' : World} (h : Quiet w w') (v : Nat) :
    Quiet w { w' with st := { w'.st with timer2 := v } } :=
  quiet_trans h (quiet_arm2 v w')

/-- Step combinator: run the ready-wait loop. -/
theorem Quiet.step_waitReadyAux {w w' : World} (h : Quiet w w') (env : Env)
    (f : Nat) : Quiet w (waitReadyAux env f w').2 :=
  quiet_trans h (quiet_waitReadyAux env f w')

/-- Step combinator: run `wait_ready`. -/
theorem Quiet.step_wait_ready {w w' : World} (h : Quiet w w') (env : Env) :
    Quiet w (wait_ready env w').2 :=
  quiet_trans h (quiet_wait_ready env w')

/-- Step combinator: run `mmc_deselect`. -/
theorem Quiet.step_deselect {w w' : World} (h : Quiet w w') (env : Env) :
    Quiet w (mmc_deselect env w') :=
  quiet_trans h (quiet_mmc_deselect env w')

/-- Step combinator: run `mmc_select`. -/
theorem Quiet.step_select {w w' : World} (h : Quiet w w') (env : Env) :
    Quiet w (mmc_select env w').2 :=
  quiet_trans h (quiet_mmc_select env w')

/-- Step combinator: run the token-wait loop. -/
theorem Quiet.step_tokenWaitAux {w w' : World} (h : Quiet w w') (env : Env)
    (f : Nat) : Quiet w (tokenWaitAux env f w').2 :=
  quiet_trans h (quiet_tokenWaitAux env f w')

/-- Step combinator: run the burst receive. -/
theorem Quiet.step_rcvr_multi {w w' : World} (h : Quiet w w') (env : Env)
    (n : Nat) : Quiet w (rcvr_spi_multi env n w').2 :=
  quiet_trans h (quiet_rcvr_spi_multi env n w')

/-- Step combinator: run the burst transmit. -/
theorem Quiet.step_xmit_multi {w w' : World} (h : Quiet w w') (env : Env)
    (buff : Nat → Nat) (off n : Nat) :
    Quiet w (xmit_spi_multi env buff off n w') :=
  quiet_trans h (quiet_xmit_spi_multi env buff n off w')

/-- Step combinator: run `rcvr_datablock`. -/
theorem Quiet.step_rcvr_datablock {w w' : World} (h : Quiet w w') (env : Env)
    (btr : Nat) : Quiet w (rcvr_datablock env btr w').2.2 :=
  quiet_trans h (quiet_rcvr_datablock env btr w')

/-- Step combinator: run the response poll. -/
theorem Quiet.step_respPoll {w w' : World} (h : Quiet w w') (env : Env)
    (n : Nat) : Quiet w (respPoll env n w').2 :=
  quiet_trans h (quiet_respPoll env n w')

/-- Step combinator: run the dummy-clock burst. -/
theorem Quiet.step_clocks {w w' : World} (h : Quiet w w') (env : Env)
    (n : Nat) : Quiet w (clocks env n w') :=
  quiet_trans h (quiet_clocks env n w')

/-- The command core is `Quiet`. -/
theorem quiet_send_cmd_core (env : Env) (cmd arg : Nat) (w : World) :
    Quiet w (send_cmd_core env cmd arg w).2 := by
  simp only [send_cmd_core]
  split
  · split
    · exact ((quiet_refl w).step_deselect env).step_select env
    · split
      · exact ((((((((((quiet_refl w).step_deselect env).step_select
          env).step_xchg env _).step_xchg env _).step_xchg env _).step_xchg
          env _).step_xchg env _).step_xchg env _).step_respPoll env 10)
      · split
        · exact ((((((((((quiet_refl w).step_deselect env).step_select
            env).step_xchg env _).step_xchg env _).step_xchg env
            _).step_xchg env _).step_xchg env _).step_xchg env
            _).step_respPoll env 10)
        · exact ((((((((((quiet_refl w).step_deselect env).step_select
            env).step_xchg env _).step_xchg env _).step_xchg env
            _).step_xchg env _).step_xchg env _).step_xchg env
            _).step_respPoll env 10)
  · split
    · rename_i hsel
      simp at hsel
    · split
      · refine Quiet.step_respPoll ?_ env 10
        refine Quiet.step_xchg ?_ env 0xFF
        refine Quiet.step_xchg ?_ env _
        refine Quiet.step_xchg ?_ env _
        refine Quiet.step_xchg ?_ env _
        refine Quiet.step_xchg ?_ env _
        refine Quiet.step_xchg ?_ env _
        refine Quiet.step_xchg ?_ env _
        exact quiet_refl w
      · refine Quiet.step_respPoll ?_ env 10
        refine Quiet.step_xchg ?_ env _
        refine Quiet.step_xchg ?_ env _
        refine Quiet.step_xchg ?_ env _
        refine Quiet.step_xchg ?_ env _
        refine Quiet.step_xchg ?_ env _
        refine Quiet.step_xchg ?_ env _
        exact quiet_refl w

/-- `send_cmd` is `Quiet`. -/
theorem quiet_send_cmd (env : Env) (cmd arg : Nat) (w : World) :
    Quiet w (send_cmd env cmd arg w).2 := by
  simp only [send_cmd]
  split
  · split
    · exact quiet_send_cmd_core env 55 0 w
    · exact quiet_trans (quiet_send_cmd_core env 55 0 w)
        (quiet_send_cmd_core env _ arg _)
  · exact quiet_send_cmd_core env cmd arg w

/-- The negotiation poll of the initialization sequence is `Quiet`. -/
theorem quiet_initPollAux (env : Env) (cmd arg : Nat) :
    ∀ (fuel : Nat) (w : World), Quiet w (initPollAux env cmd arg fuel w) := by
  intro fuel
  induction fuel with
  | zero => intro w; exact quiet_refl w
  | succ fuel ih =>
    intro w
    simp only [initPollAux]
    split
    · split
      · exact quiet_trans (quiet_send_cmd env cmd arg w) (ih _)
      · exact quiet_send_cmd env cmd arg w
    · exact quiet_refl w

/-! ### Frame lemmas for the data-transmit path -/

/-- After a tick, clearing `STA_NOINIT` leaves no not-initialized bit. -/
theorem tickStat_fe_noinit (x : Nat) :
    (((x &&& 0xFB) &&& 0xFD) &&& 0xFE) &&& 1 = 0 := by
  rw [Nat.and_assoc, Nat.and_assoc, Nat.and_assoc]
  show x &&& 0 = 0
  simp

/-- After a tick, clearing `STA_NOINIT` keeps the protect bit zero. -/
theorem tickStat_fe_prot (x : Nat) :
    (((x &&& 0xFB) &&& 0xFD) &&& 0xFE) &&& 4 = 0 := by
  rw [Nat.and_assoc, Nat.and_assoc, Nat.and_assoc]
  show x &&& 0 = 0
  simp

/-- Tame step: one exchange. -/
theorem Tame.step_xchg_tm {w w' : World} (h : Tame w w') (env : Env) (b : Nat) :
    Tame w (xchg env b w').2 :=
  tame_trans h (quiet_xchg env b w').1

/-- Tame step: record a data-token marker. -/
theorem Tame.step_dtoken {w w' : World} (h : Tame w w') (tok : Nat) :
    Tame w (pushEv (Ev.dtoken tok) w') :=
  tame_trans h (tame_push_dtoken tok w')

/-- Tame step: burst transmit. -/
theorem Tame.step_xmit_multi_tm {w w' : World} (h : Tame w w') (env : Env)
    (buff : Nat → Nat) (off n : Nat) :
    Tame w (xmit_spi_multi env buff off n w') :=
  tame_trans h (quiet_xmit_spi_multi env buff n off w').1

/-- Tame step: `wait_ready`. -/
theorem Tame.step_wait_ready_tm {w w' : World} (h : Tame w w') (env : Env) :
    Tame w (wait_ready env w').2 :=
  tame_trans h (quiet_wait_ready env w').1

/-- `xmit_datablock` is `Tame`. -/
theorem tame_xmit_datablock (env : Env) (buff : Nat → Nat) (off tok : Nat)
    (w : World) : Tame w (xmit_datablock env buff off tok w).2 := by
  simp only [xmit_datablock]
  split
  · exact (tame_refl w).step_wait_ready_tm env
  · split
    · split
      · exact (((((((tame_refl w).step_wait_ready_tm env).step_xchg_tm env
          tok).step_dtoken tok).step_xmit_multi_tm env buff off 512).step_xchg_tm
          env 0xFF).step_xchg_tm env 0xFF).step_xchg_tm env 0xFF
      · exact (((((((tame_refl w).step_wait_ready_tm env).step_xchg_tm env
          tok).step_dtoken tok).step_xmit_multi_tm env buff off 512).step_xchg_tm
          env 0xFF).step_xchg_tm env 0xFF).step_xchg_tm env 0xFF
    · exact (((tame_refl w).step_wait_ready_tm env).step_xchg_tm env
        tok).step_dtoken tok

/-- Token counting through one exchange. -/
theorem tokenCount_xchg (env : Env) (b : Nat) (w : World) (t : Nat) :
    tokenCount t (xchg env b w).2.trace = tokenCount t w.trace := rfl

/-- Token counting through a data-token marker. -/
theorem tokenCount_dtoken_push (tok : Nat) (w : World) (t : Nat) :
    tokenCount t (pushEv (Ev.dtoken tok) w).trace =
      (if tok = t then 1 else 0) + tokenCount t w.trace := rfl

/-- Token counting through a burst transmit. -/
theorem tokenCount_xmit_multi (env : Env) (buff : Nat → Nat) (off n : Nat)
    (w : World) (t : Nat) :
    tokenCount t (xmit_spi_multi env buff off n w).trace =
      tokenCount t w.trace :=
  (quiet_xmit_spi_multi env buff n off w).2 t

/-- Token counting through `wait_ready`. -/
theorem tokenCount_wait_ready (env : Env) (w : World) (t : Nat) :
    tokenCount t (wait_ready env w).2.trace = tokenCount t w.trace :=
  (quiet_wait_ready env w).2 t

/-- The transmit-block function with its lets spelled out as projections. -/
theorem xmit_datablock_eq (env : Env) (buff : Nat → Nat) (off tok : Nat)
    (w : World) :
    xmit_datablock env buff off tok w =
      (if (!(wait_ready env w).1) = true then (false, (wait_ready env w).2)
      else if tok ≠ 0xFD then
        (if (xchg env 0xFF
              (xchg env 0xFF
                (xchg env 0xFF
                  (xmit_spi_multi env buff off 512
                    (pushEv (Ev.dtoken tok)
                      (xchg env tok (wait_ready env w).2).2))).2).2).1 &&&
            0x1F ≠ 0x05 then
          (false,
            (xchg env 0xFF
              (xchg env 0xFF
                (xchg env 0xFF
                  (xmit_spi_multi env buff off 512
                    (pushEv (Ev.dtoken tok)
                      (xchg env tok (wait_ready env w).2).2))).2).2).2)
        else
          (true,
            (xchg env 0xFF
              (xchg env 0xFF
                (xchg env 0xFF
                  (xmit_spi_multi env buff off 512
                    (pushEv (Ev.dtoken tok)
                      (xchg env tok (wait_ready env w).2).2))).2).2).2))
      else
        (true, pushEv (Ev.dtoken tok)
          (xchg env tok (wait_ready env w).2).2)) := by
  simp only [xmit_datablock]

/-- `xmit_datablock` adds exactly one marker for its token when the card
reports ready within the budget, and none otherwise. -/
theorem tokenCount_xmit_datablock (env : Env) (buff : Nat → Nat)
    (off tok : Nat) (w : World) (t : Nat) :
    tokenCount t (xmit_datablock env buff off tok w).2.trace =
      tokenCount t w.trace +
        (if (wait_ready env w).1 = true then (if tok = t then 1 else 0)
          else 0) := by
  rw [xmit_datablock_eq]
  cases hok : (wait_ready env w).1 with
  | false =>
    rw [if_pos (show (!false) = true from rfl)]
    show tokenCount t (wait_ready env w).2.trace = _
    rw [tokenCount_wait_ready]
    simp
  | true =>
    rw [if_neg (show ¬(!true) = true from by simp),
      if_pos (show true = true from rfl)]
    by_cases hfd : tok ≠ 0xFD
    · rw [if_pos hfd]
      split
      · show tokenCount t (xchg env 0xFF
            (xchg env 0xFF
              (xchg env 0xFF
                (xmit_spi_multi env buff off 512
                  (pushEv (Ev.dtoken tok)
                    (xchg env tok (wait_ready env w).2).2))).2).2).2.trace = _
        rw [tokenCount_xchg, tokenCount_xchg, tokenCount_xchg,
          tokenCount_xmit_multi, tokenCount_dtoken_push, tokenCount_xchg,
          tokenCount_wait_ready]
        omega
      · show tokenCount t (xchg env 0xFF
            (xchg env 0xFF
              (xchg env 0xFF
                (xmit_spi_multi env buff off 512
                  (pushEv (Ev.dtoken tok)
                    (xchg env tok (wait_ready env w).2).2))).2).2).2.trace = _
        rw [tokenCount_xchg, tokenCount_xchg, tokenCount_xchg,
          tokenCount_xmit_multi, tokenCount_dtoken_push, tokenCount_xchg,
          tokenCount_wait_ready]
        omega
    · rw [if_neg hfd]
      show tokenCount t (pushEv (Ev.dtoken tok)
          (xchg env tok (wait_ready env w).2).2).trace = _
      rw [tokenCount_dtoken_push, tokenCount_xchg, tokenCount_wait_ready]
      omega

/-- The multi-block write loop is `Tame`. -/
theorem tame_writeLoopAux (env : Env) (buff : Nat → Nat) :
    ∀ (count off : Nat) (w : World),
      Tame w (writeLoopAux env buff count off w).2 := by
  intro count
  induction count with
  | zero => intro off w; exact tame_refl w
  | succ count ih =>
    intro off w
    simp only [writeLoopAux]
    split
    · split
      · exact tame_trans (tame_xmit_datablock env buff off 0xFC w) (ih _ _)
      · exact tame_xmit_datablock env buff off 0xFC w
    · exact tame_xmit_datablock env buff off 0xFC w

/-- The multi-block write loop transmits only 0xFC tokens: it adds no marker
for any other token value. -/
theorem tokenCount_writeLoop_ne (env : Env) (buff : Nat → Nat) (t : Nat)
    (hne : t ≠ 0xFC) :
    ∀ (count off : Nat) (w : World),
      tokenCount t (writeLoopAux env buff count off w).2.trace =
        tokenCount t w.trace := by
  intro count
  induction count with
  | zero => intro off w; rfl
  | succ count ih =>
    intro off w
    have hx : ∀ off' w', tokenCount t
        (xmit_datablock env buff off' 0xFC w').2.trace =
        tokenCount t w'.trace := by
      intro off' w'
      rw [tokenCount_xmit_datablock]
      rw [if_neg (fun hc : (0xFC : Nat) = t => hne hc.symm)]
      simp
    simp only [writeLoopAux]
    split
    · split
      · rw [ih, hx]
      · dsimp only
        rw [hx]
    · dsimp only
      rw [hx]

/-- The multi-block write loop transmits at most one 0xFC frame token per
block. -/
theorem tokenCount_writeLoop_fc_le (env : Env) (buff : Nat → Nat) :
    ∀ (count off : Nat) (w : World),
      tokenCount 0xFC (writeLoopAux env buff count off w).2.trace ≤
        tokenCount 0xFC w.trace + count := by
  intro count
  induction count with
  | zero => intro off w; simp [writeLoopAux]
  | succ count ih =>
    intro off w
    have hx : ∀ off' w', tokenCount 0xFC
        (xmit_datablock env buff off' 0xFC w').2.trace ≤
        tokenCount 0xFC w'.trace + 1 := by
      intro off' w'
      rw [tokenCount_xmit_datablock]
      split <;> simp
    simp only [writeLoopAux]
    split
    · split
      · calc tokenCount 0xFC (writeLoopAux env buff count (off + 512)
              (xmit_datablock env buff off 0xFC w).2).2.trace
            ≤ tokenCount 0xFC (xmit_datablock env buff off 0xFC w).2.trace
              + count := ih _ _
          _ ≤ tokenCount 0xFC w.trace + 1 + count := by
              have := hx off w
              omega
          _ ≤ tokenCount 0xFC w.trace + (count + 1) := by omega
      · have := hx off w
        dsimp only
        omega
    · have := hx off w
      dsimp only
      omega

/-! ### Frame lemmas for the public operations -/

/-- Quiet step: run `send_cmd`. -/
theorem Quiet.step_send_cmd {w w' : World} (h : Quiet w w') (env : Env)
    (cmd arg : Nat) : Quiet w (send_cmd env cmd arg w').2 :=
  quiet_trans h (quiet_send_cmd env cmd arg w')

/-- Quiet step: run the negotiation poll. -/
theorem Quiet.step_initPoll {w w' : World} (h : Quiet w w') (env : Env)
    (cmd arg fuel : Nat) : Quiet w (initPollAux env cmd arg fuel w') :=
  quiet_trans h (quiet_initPollAux env cmd arg fuel w')

/-- Tame step: run `send_cmd`. -/
theorem Tame.step_send_cmd_tm {w w' : World} (h : Tame w w') (env : Env)
    (cmd arg : Nat) : Tame w (send_cmd env cmd arg w').2 :=
  tame_trans h (quiet_send_cmd env cmd arg w').1

/-- Tame step: run `mmc_deselect`. -/
theorem Tame.step_deselect_tm {w w' : World} (h : Tame w w') (env : Env) :
    Tame w (mmc_deselect env w') :=
  tame_trans h (quiet_mmc_deselect env w').1

/-- Tame step: run `xmit_datablock`. -/
theorem Tame.step_xmit_datablock {w w' : World} (h : Tame w w') (env : Env)
    (buff : Nat → Nat) (off tok : Nat) :
    Tame w (xmit_datablock env buff off tok w').2 :=
  tame_trans h (tame_xmit_datablock env buff off tok w')

/-- Tame step: run the multi-block write loop. -/
theorem Tame.step_writeLoop {w w' : World} (h : Tame w w') (env : Env)
    (buff : Nat → Nat) (count off : Nat) :
    Tame w (writeLoopAux env buff count off w').2 :=
  tame_trans h (tame_writeLoopAux env buff count off w')

/-- The multi-block read loop is `Quiet`. -/
theorem quiet_readLoopAux (env : Env) :
    ∀ (count : Nat) (acc : List Nat) (w : World),
      Quiet w (readLoopAux env count acc w).2.2 := by
  intro count
  induction count with
  | zero => intro acc w; exact quiet_refl w
  | succ count ih =>
    intro acc w
    simp only [readLoopAux]
    split
    · split
      · exact quiet_trans (quiet_rcvr_datablock env 512 w) (ih _ _)
      · dsimp only
        exact quiet_rcvr_datablock env 512 w
    · dsimp only
      exact quiet_rcvr_datablock env 512 w

/-- Quiet step: run the multi-block read loop. -/
theorem Quiet.step_readLoop {w w' : World} (h : Quiet w w') (env : Env)
    (count : Nat) (acc : List Nat) :
    Quiet w (readLoopAux env count acc w').2.2 :=
  quiet_trans h (quiet_readLoopAux env count acc w')

set_option maxRecDepth 16384 in
set_option maxHeartbeats 2000000 in
/-- `disk_read` is `Quiet`. -/
theorem quiet_disk_read (env : Env) (pdrv sector count : Nat) (w : World) :
    Quiet w (disk_read env pdrv sector count w).2.2 := by
  simp only [disk_read]
  split
  · exact quiet_refl w
  · split
    · exact quiet_refl w
    · split
      · split
        · split
          · dsimp only
            exact ((((quiet_refl w).step_send_cmd env 17
              _).step_rcvr_datablock env 512).step_deselect env)
          · dsimp only
            exact (((quiet_refl w).step_send_cmd env 17
              _).step_deselect env)
        · split
          · dsimp only
            exact ((((quiet_refl w).step_send_cmd env 17
              _).step_rcvr_datablock env 512).step_deselect env)
          · dsimp only
            exact (((quiet_refl w).step_send_cmd env 17
              _).step_deselect env)
      · split
        · split
          · dsimp only
            exact (((((quiet_refl w).step_send_cmd env 18
              _).step_readLoop env count []).step_send_cmd env 12
              0).step_deselect env)
          · dsimp only
            exact (((quiet_refl w).step_send_cmd env 18
              _).step_deselect env)
        · split
          · dsimp only
            exact (((((quiet_refl w).step_send_cmd env 18
              _).step_readLoop env count []).step_send_cmd env 12
              0).step_deselect env)
          · dsimp only
            exact (((quiet_refl w).step_send_cmd env 18
              _).step_deselect env)

/-- Quiet step: run `mmc_deselect` (alias used in chains). -/
theorem Quiet.step_deselect2 {w w' : World} (h : Quiet w w') (env : Env) :
    Quiet w (mmc_deselect env w') :=
  quiet_trans h (quiet_mmc_deselect env w')

/-- `multiWrite` is `Tame`. -/
theorem tame_multiWrite (env : Env) (buff : Nat → Nat) (sect count : Nat)
    (w : World) : Tame w (multiWrite env buff sect count w).2 := by
  simp only [multiWrite]
  split
  · split
    · dsimp only
      exact ((((tame_refl w).step_send_cmd_tm env ACMD23
        count).step_send_cmd_tm env 25 sect).step_writeLoop env buff count
        0).step_xmit_datablock env (fun _ => 0) 0 0xFD
    · dsimp only
      exact ((tame_refl w).step_send_cmd_tm env ACMD23
        count).step_send_cmd_tm env 25 sect
  · split
    · dsimp only
      exact (((tame_refl w).step_send_cmd_tm env 25 sect).step_writeLoop env
        buff count 0).step_xmit_datablock env (fun _ => 0) 0 0xFD
    · dsimp only
      exact (tame_refl w).step_send_cmd_tm env 25 sect

set_option maxRecDepth 16384 in
set_option maxHeartbeats 2000000 in
/-- `disk_write` is `Tame`. -/
theorem tame_disk_write (env : Env) (pdrv : Nat) (buff : Nat → Nat)
    (sector count : Nat) (w : World) :
    Tame w (disk_write env pdrv buff sector count w).2 := by
  simp only [disk_write]
  split
  · exact tame_refl w
  · split
    · exact tame_refl w
    · split
      · exact tame_refl w
      · split
        · split
          · split
            · dsimp only
              exact (((tame_refl w).step_send_cmd_tm env 24
                _).step_xmit_datablock env buff 0 0xFE).step_deselect_tm env
            · dsimp only
              exact ((tame_refl w).step_send_cmd_tm env 24
                _).step_deselect_tm env
          · split
            · dsimp only
              exact (((tame_refl w).step_send_cmd_tm env 24
                _).step_xmit_datablock env buff 0 0xFE).step_deselect_tm env
            · dsimp only
              exact ((tame_refl w).step_send_cmd_tm env 24
                _).step_deselect_tm env
        · split
          · dsimp only
            exact tame_trans (tame_multiWrite env buff _ count w)
              ((tame_refl _).step_deselect_tm env)
          · dsimp only
            exact tame_trans (tame_multiWrite env buff _ count w)
              ((tame_refl _).step_deselect_tm env)

/-- The sync ioctl case is `Quiet`. -/
theorem quiet_ioctl_sync (env : Env) (w : World) :
    Quiet w (ioctl_sync env w).2.2 := by
  simp only [ioctl_sync]
  exact quiet_mmc_select env w

/-- The sector-count ioctl case is `Quiet`. -/
theorem quiet_ioctl_sector_count (env : Env) (w : World) :
    Quiet w (ioctl_sector_count env w).2.2 := by
  simp only [ioctl_sector_count]
  split
  · split
    · dsimp only
      exact ((quiet_refl w).step_send_cmd env 9 0).step_rcvr_datablock env 16
    · dsimp only
      exact ((quiet_refl w).step_send_cmd env 9 0).step_rcvr_datablock env 16
  · dsimp only
    exact (quiet_refl w).step_send_cmd env 9 0

/-- The block-size ioctl case is `Quiet`. -/
theorem quiet_ioctl_block_size (env : Env) (w : World) :
    Quiet w (ioctl_block_size env w).2.2 := by
  simp only [ioctl_block_size]
  split
  · split
    · split
      · dsimp only
        exact ((((quiet_refl w).step_send_cmd env ACMD13 0).step_xchg env
          0xFF).step_rcvr_datablock env 16).step_clocks env 48
      · dsimp only
        exact (((quiet_refl w).step_send_cmd env ACMD13 0).step_xchg env
          0xFF).step_rcvr_datablock env 16
    · dsimp only
      exact (quiet_refl w).step_send_cmd env ACMD13 0
  · split
    · split
      · split
        · dsimp only
          exact ((quiet_refl w).step_send_cmd env 9
            0).step_rcvr_datablock env 16
        · dsimp only
          exact ((quiet_refl w).step_send_cmd env 9
            0).step_rcvr_datablock env 16
      · dsimp only
        exact ((quiet_refl w).step_send_cmd env 9
          0).step_rcvr_datablock env 16
    · dsimp only
      exact (quiet_refl w).step_send_cmd env 9 0

/-- The register-read ioctl cases are `Quiet`. -/
theorem quiet_ioctl_get_reg (env : Env) (cmd : Nat) (w : World) :
    Quiet w (ioctl_get_reg env cmd w).2.2 := by
  simp only [ioctl_get_reg]
  split
  · split
    · dsimp only
      exact ((quiet_refl w).step_send_cmd env cmd
        0).step_rcvr_datablock env 16
    · dsimp only
      exact ((quiet_refl w).step_send_cmd env cmd
        0).step_rcvr_datablock env 16
  · dsimp only
    exact (quiet_refl w).step_send_cmd env cmd 0

/-- The OCR ioctl case is `Quiet`. -/
theorem quiet_ioctl_get_ocr (env : Env) (w : World) :
    Quiet w (ioctl_get_ocr env w).2.2 := by
  simp only [ioctl_get_ocr]
  split
  · dsimp only
    exact (((((quiet_refl w).step_send_cmd env 58 0).step_xchg env
      0xFF).step_xchg env 0xFF).step_xchg env 0xFF).step_xchg env 0xFF
  · dsimp only
    exact (quiet_refl w).step_send_cmd env 58 0

/-- The SD-status ioctl case is `Quiet`. -/
theorem quiet_ioctl_sdstat (env : Env) (w : World) :
    Quiet w (ioctl_sdstat env w).2.2 := by
  simp only [ioctl_sdstat]
  split
  · split
    · split
      · dsimp only
        exact (((quiet_refl w).step_send_cmd env ACMD13 0).step_xchg env
          0xFF).step_rcvr_datablock env 64
      · dsimp only
        exact (((quiet_refl w).step_send_cmd env ACMD13 0).step_xchg env
          0xFF).step_rcvr_datablock env 64
    · dsimp only
      exact (quiet_refl w).step_send_cmd env ACMD13 0
  · exact quiet_refl w

/-- `disk_ioctl` is `Quiet`. -/
theorem quiet_disk_ioctl (env : Env) (pdrv cmd : Nat) (w : World) :
    Quiet w (disk_ioctl env pdrv cmd w).2.2 := by
  simp only [disk_ioctl]
  split
  · exact quiet_refl w
  · split
    · exact quiet_refl w
    · split
      · exact quiet_trans (quiet_ioctl_sync env w)
          ((quiet_refl _).step_deselect2 env)
      · split
        · exact quiet_trans (quiet_ioctl_sector_count env w)
            ((quiet_refl _).step_deselect2 env)
        · split
          · exact quiet_trans (quiet_ioctl_block_size env w)
              ((quiet_refl _).step_deselect2 env)
          · split
            · dsimp only
              exact (quiet_refl w).step_deselect2 env
            · split
              · exact quiet_trans (quiet_ioctl_get_reg env 9 w)
                  ((quiet_refl _).step_deselect2 env)
              · split
                · exact quiet_trans (quiet_ioctl_get_reg env 10 w)
                    ((quiet_refl _).step_deselect2 env)
                · split
                  · exact quiet_trans (quiet_ioctl_get_ocr env w)
                      ((quiet_refl _).step_deselect2 env)
                  · split
                    · exact quiet_trans (quiet_ioctl_sdstat env w)
                        ((quiet_refl _).step_deselect2 env)
                    · dsimp only
                      exact (quiet_refl w).step_deselect2 env

/-- The initialization entry actions are `Quiet`. -/
theorem quiet_initEntry (env : Env) (w : World) :
    Quiet w (initEntry env w) :=
  (((quiet_refl w).step_powerOn).step_fclkSlow).step_clocks env 10

/-- The probe sequence is `Quiet`: it performs only command-layer traffic
and never touches `CardType`, the not-initialized bit, or the trace
markers. -/
theorem quiet_initProbe (env : Env) (w : World) :
    Quiet w (initProbe env w).2 := by
  simp only [initProbe]
  split
  · split
    · split
      · split
        · split
          · dsimp only
            exact (((((((((((quiet_refl w).step_send_cmd env 0
              0).step_arm1 1000).step_send_cmd env 8 0x1AA).step_xchg env
              0xFF).step_xchg env 0xFF).step_xchg env 0xFF).step_xchg env
              0xFF).step_initPoll env ACMD41 0x40000000 _).step_send_cmd
              env 58 0).step_xchg env 0xFF).step_xchg env
              0xFF |>.step_xchg env 0xFF |>.step_xchg env 0xFF
          · dsimp only
            exact ((((((((((quiet_refl w).step_send_cmd env 0
              0).step_arm1 1000).step_send_cmd env 8 0x1AA).step_xchg env
              0xFF).step_xchg env 0xFF).step_xchg env 0xFF).step_xchg env
              0xFF).step_initPoll env ACMD41 0x40000000 _).step_send_cmd
              env 58 0)
        · dsimp only
          exact (((((((((quiet_refl w).step_send_cmd env 0
            0).step_arm1 1000).step_send_cmd env 8 0x1AA).step_xchg env
            0xFF).step_xchg env 0xFF).step_xchg env 0xFF).step_xchg env
            0xFF).step_initPoll env ACMD41 0x40000000 _)
      · dsimp only
        exact ((((((((quiet_refl w).step_send_cmd env 0
          0).step_arm1 1000).step_send_cmd env 8 0x1AA).step_xchg env
          0xFF).step_xchg env 0xFF).step_xchg env 0xFF).step_xchg env 0xFF)
    · split
      · split
        · dsimp only
          exact ((((((quiet_refl w).step_send_cmd env 0 0).step_arm1
            1000).step_send_cmd env 8 0x1AA).step_send_cmd env ACMD41
            0).step_initPoll env ACMD41 0 _)
        · dsimp only
          exact (((((((quiet_refl w).step_send_cmd env 0 0).step_arm1
            1000).step_send_cmd env 8 0x1AA).step_send_cmd env ACMD41
            0).step_initPoll env ACMD41 0 _).step_send_cmd env 16 512)
      · split
        · dsimp only
          exact ((((((quiet_refl w).step_send_cmd env 0 0).step_arm1
            1000).step_send_cmd env 8 0x1AA).step_send_cmd env ACMD41
            0).step_initPoll env 1 0 _)
        · dsimp only
          exact (((((((quiet_refl w).step_send_cmd env 0 0).step_arm1
            1000).step_send_cmd env 8 0x1AA).step_send_cmd env ACMD41
            0).step_initPoll env 1 0 _).step_send_cmd env 16 512)
  · dsimp only
    exact (quiet_refl w).step_send_cmd env 0 0

/-- Exit actions of the initialization run: the card type is stored (with
its marker), the card is deselected, and then the not-initialized bit is
cleared (success) or left exactly as it was (failure, where the power-off
hook is recorded instead); the write-protected bit is zero either way, the
returned value is the final status, and the whole tail adds exactly the
four expected events — in particular the deselect happens before the
return, with only a hook event after it. -/
theorem initTail_spec (env : Env) (ty : Nat) (w : World) :
    (initTail env ty w).2.st.cardType = ty ∧
    (initTail env ty w).2.st.stat &&& STA_NOINIT =
      (if ty ≠ 0 then 0 else w.st.stat &&& STA_NOINIT) ∧
    (initTail env ty w).2.st.stat &&& STA_PROTECT = 0 ∧
    (initTail env ty w).1 = (initTail env ty w).2.st.stat ∧
    (initTail env ty w).2.trace =
      (if ty ≠ 0 then Ev.fclkFast else Ev.powerOff) ::
        Ev.xchg 0xFF (env.card w.idx % 256) :: Ev.csHigh ::
          Ev.setType ty :: w.trace ∧
    setTypeCount (initTail env ty w).2.trace = setTypeCount w.trace + 1 := by
  simp only [initTail]
  split
  · refine ⟨rfl, ?_, ?_, rfl, rfl, ?_⟩
    · exact tickStat_fe_noinit w.st.stat
    · exact tickStat_fe_prot w.st.stat
    · show setTypeCount (Ev.fclkFast :: Ev.xchg (0xFF % 256)
        (env.card w.idx % 256) :: Ev.csHigh :: Ev.setType ty :: w.trace) = _
      simp [setTypeCount]
      omega
  · refine ⟨rfl, ?_, ?_, rfl, rfl, ?_⟩
    · exact tickStat_noinit w.st.stat
    · exact tickStat_prot w.st.stat
    · show setTypeCount (Ev.powerOff :: Ev.xchg (0xFF % 256)
        (env.card w.idx % 256) :: Ev.csHigh :: Ev.setType ty :: w.trace) = _
      simp [setTypeCount]
      omega

/-- `disk_init` with the drive guards passed factors into entry, probe, and
tail. -/
theorem disk_init_eq (env : Env) (w : World)
    (h : w.st.stat &&& STA_NODISK = 0) :
    disk_init env 0 w =
      initTail env (initProbe env (initEntry env w)).1
        (initProbe env (initEntry env w)).2 := by
  simp only [disk_init]
  rw [if_neg (by simp), if_neg (by simp [h])]

/-- The tick handler itself is `Tame`. -/
theorem tame_tick (w : World) :
    Tame w { w with st := disk_timerproc w.st } :=
  ⟨rfl, tickStat_noinit w.st.stat, Or.inl (tickStat_prot w.st.stat), rfl⟩

/-- A tick zeroes both socket-status bits at once. -/
theorem tickStat_wp_nd (x : Nat) : ((x &&& 0xFB) &&& 0xFD) &&& 6 = 0 := by
  rw [Nat.and_assoc, Nat.and_assoc]
  show x &&& 0 = 0
  simp

/-- An initialization run cannot set the write-protected bit. -/
theorem disk_init_prot (env : Env) (pdrv : Nat) (w : World)
    (h : w.st.stat &&& STA_PROTECT = 0) :
    (disk_init env pdrv w).2.st.stat &&& STA_PROTECT = 0 := by
  simp only [disk_init]
  split
  · exact h
  · split
    · exact h
    · exact (initTail_spec env _ _).2.2.1

set_option maxRecDepth 16384 in
set_option maxHeartbeats 2000000 in
/-- `disk_write` never returns the write-protected result from a state whose
write-protected bit is clear. -/
theorem disk_write_ne_wrprt (env : Env) (pdrv : Nat) (buff : Nat → Nat)
    (sector count : Nat) (w : World) (h : w.st.stat &&& STA_PROTECT = 0) :
    (disk_write env pdrv buff sector count w).1 ≠ RES_WRPRT := by
  simp only [disk_write]
  split
  · dsimp only
    decide
  · split
    · dsimp only
      decide
    · split
      · rename_i hprot
        exact absurd h hprot
      · split
        · split
          · split
            · dsimp only
              split <;> decide
            · dsimp only
              split <;> decide
          · split
            · dsimp only
              split <;> decide
            · dsimp only
              split <;> decide
        · split
          · dsimp only
            split <;> decide
          · dsimp only
            split <;> decide

/-- C9: in this hardware variant the write-protect and card-detect lines
are hard-wired (never protected, always present), so every tick clears the
write-protected and no-disk flags and never sets them, and never forces the
not-initialized flag; consequently, from the initial state, the
write-protected flag is clear in every reachable world, and `disk_write`'s
write-protected rejection branch is unreachable. -/
theorem protect_c9 :
    (∀ s : DriverState,
      (disk_timerproc s).stat &&& (STA_PROTECT ||| STA_NODISK) = 0 ∧
      (disk_timerproc s).stat &&& STA_NOINIT = s.stat &&& STA_NOINIT) ∧
    (∀ w : World, Reachable w → w.st.stat &&& STA_PROTECT = 0) ∧
    (∀ w : World, Reachable w → ∀ (env : Env) (pdrv : Nat)
      (buff : Nat → Nat) (sector count : Nat),
      (disk_write env pdrv buff sector count w).1 ≠ RES_WRPRT) := by
  have hinv : ∀ w : World, Reachable w → w.st.stat &&& STA_PROTECT = 0 := by
    intro w hr
    induction hr with
    | refl => decide
    | tail _ hstep ih =>
      cases hstep with
      | tick =>
        rcases (tame_tick _).2.2.1 with h | h
        · exact h
        · rw [h]
          exact ih
      | init env pdrv => exact disk_init_prot env pdrv _ ih
      | read env pdrv sector count =>
        rcases (quiet_disk_read env pdrv sector count _).1.2.2.1 with h | h
        · exact h
        · rw [h]
          exact ih
      | write env pdrv buff sector count =>
        rcases (tame_disk_write env pdrv buff sector count _).2.2.1 with h | h
        · exact h
        · rw [h]
          exact ih
      | ioctl env pdrv cmd =>
        rcases (quiet_disk_ioctl env pdrv cmd _).1.2.2.1 with h | h
        · exact h
        · rw [h]
          exact ih
  refine ⟨fun s => ⟨tickStat_wp_nd s.stat, tickStat_noinit s.stat⟩, hinv, ?_⟩
  intro w hr env pdrv buff sector count
  exact disk_write_ne_wrprt env pdrv buff sector count w (hinv w hr)

/-- Witness for C9: the initial world is reachable, its protect bit is
clear, and a concrete `disk_write` there does not return the
write-protected result. -/
theorem protect_c9_witness :
    initialWorld.st.stat &&& STA_PROTECT = 0 ∧
    (disk_write ⟨fun _ => 0⟩ 0 (fun _ => 0) 0 1 initialWorld).1 ≠
      RES_WRPRT :=
  ⟨(protect_c9.2.1 initialWorld Relation.ReflTransGen.refl),
    protect_c9.2.2 initialWorld Relation.ReflTransGen.refl
      ⟨fun _ => 0⟩ 0 (fun _ => 0) 0 1⟩

/-- Counterexample for C5: from a world whose `CardType` is 2 (a previous
successful detection) and whose status is clear, an initialization run under
a card that answers every exchange with 0xFF fails its probe (detected type
0), yet it still overwrites `CardType` with 0 and records a `CardType`-write
marker — so the write is not restricted to successful runs, and a failed run
does not leave the value unchanged. -/
theorem card_type_c5_cex :
    (initProbe ⟨fun _ => 0xFF⟩
        (initEntry ⟨fun _ => 0xFF⟩ ⟨⟨0, 0, 0, 2⟩, 0, []⟩)).1 = 0 ∧
    (⟨⟨0, 0, 0, 2⟩, 0, []⟩ : World).st.cardType = 2 ∧
    (disk_init ⟨fun _ => 0xFF⟩ 0 ⟨⟨0, 0, 0, 2⟩, 0, []⟩).2.st.cardType = 0 ∧
    setTypeCount
        (disk_init ⟨fun _ => 0xFF⟩ 0 ⟨⟨0, 0, 0, 2⟩, 0, []⟩).2.trace = 1 := by
  decide

/-- C5 (amended): every initialization run that passes the drive-number and
no-disk guards — successful or not — writes `CardType` exactly once, storing
the probe result (0 on failure); runs rejected by the guards write nothing;
and `CardType` is immutable under every other operation: `disk_read`,
`disk_write`, `disk_ioctl`, and the tick handler neither change it nor add a
`CardType`-write marker. -/
theorem card_type_c5 (env : Env) (w : World) :
    (∀ pdrv, setTypeCount (disk_init env pdrv w).2.trace =
        setTypeCount w.trace +
          (if pdrv = 0 ∧ w.st.stat &&& STA_NODISK = 0 then 1 else 0)) ∧
    (w.st.stat &&& STA_NODISK = 0 →
        (disk_init env 0 w).2.st.cardType =
          (initProbe env (initEntry env w)).1) ∧
    (∀ pdrv sector count,
        (disk_read env pdrv sector count w).2.2.st.cardType =
          w.st.cardType ∧
        setTypeCount (disk_read env pdrv sector count w).2.2.trace =
          setTypeCount w.trace) ∧
    (∀ pdrv buff sector count,
        (disk_write env pdrv buff sector count w).2.st.cardType =
          w.st.cardType ∧
        setTypeCount (disk_write env pdrv buff sector count w).2.trace =
          setTypeCount w.trace) ∧
    (∀ pdrv cmd,
        (disk_ioctl env pdrv cmd w).2.2.st.cardType = w.st.cardType ∧
        setTypeCount (disk_ioctl env pdrv cmd w).2.2.trace =
          setTypeCount w.trace) ∧
    (disk_timerproc w.st).cardType = w.st.cardType := by
  refine ⟨?_, ?_, ?_, ?_, ?_, rfl⟩
  · intro pdrv
    by_cases hp : pdrv = 0
    · subst hp
      by_cases hd : w.st.stat &&& STA_NODISK = 0
      · rw [disk_init_eq env w hd,
          (initTail_spec env (initProbe env (initEntry env w)).1
            (initProbe env (initEntry env w)).2).2.2.2.2.2,
          (quiet_initProbe env (initEntry env w)).1.2.2.2,
          (quiet_initEntry env w).1.2.2.2]
        simp [hd]
      · simp only [disk_init, if_neg (show ¬(0 ≠ 0) by simp), if_pos hd]
        simp [hd]
    · simp only [disk_init, if_pos hp]
      simp [hp]
  · intro hd
    rw [disk_init_eq env w hd]
    exact (initTail_spec env _ _).1
  · intro pdrv sector count
    exact ⟨(quiet_disk_read env pdrv sector count w).1.1,
      (quiet_disk_read env pdrv sector count w).1.2.2.2⟩
  · intro pdrv buff sector count
    exact ⟨(tame_disk_write env pdrv buff sector count w).1,
      (tame_disk_write env pdrv buff sector count w).2.2.2⟩
  · intro pdrv cmd
    exact ⟨(quiet_disk_ioctl env pdrv cmd w).1.1,
      (quiet_disk_ioctl env pdrv cmd w).1.2.2.2⟩

/-- Witness for C5: at the initial world the no-disk guard passes and the
stored card type equals the probe result. -/
theorem card_type_c5_witness :
    initialWorld.st.stat &&& STA_NODISK = 0 ∧
    (disk_init ⟨fun _ => 0xFF⟩ 0 initialWorld).2.st.cardType =
      (initProbe ⟨fun _ => 0xFF⟩
        (initEntry ⟨fun _ => 0xFF⟩ initialWorld)).1 :=
  ⟨by decide, (card_type_c5 ⟨fun _ => 0xFF⟩ initialWorld).2.1 (by decide)⟩

/-- Counterexample for C6: an initialization run from a world whose
not-initialized bit is already clear, under a card answering every exchange
with 0xFF, fails its probe (detected type 0) and invokes the power-off hook,
yet afterwards the not-initialized flag is clear — it does not "remain set",
it merely retains its entry value. -/
theorem init_fail_c6_cex :
    (initProbe ⟨fun _ => 0xFF⟩
        (initEntry ⟨fun _ => 0xFF⟩ ⟨⟨0, 0, 0, 0⟩, 0, []⟩)).1 = 0 ∧
    (disk_init ⟨fun _ => 0xFF⟩ 0
        ⟨⟨0, 0, 0, 0⟩, 0, []⟩).2.st.stat &&& STA_NOINIT = 0 ∧
    (disk_init ⟨fun _ => 0xFF⟩ 0
        ⟨⟨0, 0, 0, 0⟩, 0, []⟩).2.trace.head? = some Ev.powerOff := by
  decide

/-- C6 (amended): at the end of every `disk_initialize` run that reaches the
probe sequence, if the detected card type is nonzero the not-initialized
flag is cleared and fast clock mode is selected; if it is zero the power-off
hook is invoked and the not-initialized flag retains the value it had at
entry (which is set in ordinary use but need not be); in both cases the card
is deselected before returning, with only the clock/power hook event after
the deselect, and the returned value is the final status. -/
theorem init_exit_c6 (env : Env) (w : World)
    (h : w.st.stat &&& STA_NODISK = 0) :
    (disk_init env 0 w).2.st.stat &&& STA_NOINIT =
      (if (initProbe env (initEntry env w)).1 ≠ 0 then 0
       else w.st.stat &&& STA_NOINIT) ∧
    (disk_init env 0 w).1 = (disk_init env 0 w).2.st.stat ∧
    (disk_init env 0 w).2.trace =
      (if (initProbe env (initEntry env w)).1 ≠ 0 then Ev.fclkFast
       else Ev.powerOff) ::
        Ev.xchg 0xFF
            (env.card (initProbe env (initEntry env w)).2.idx % 256) ::
          Ev.csHigh :: Ev.setType (initProbe env (initEntry env w)).1 ::
            (initProbe env (initEntry env w)).2.trace := by
  rw [disk_init_eq env w h]
  have hs := initTail_spec env (initProbe env (initEntry env w)).1
    (initProbe env (initEntry env w)).2
  refine ⟨?_, hs.2.2.2.1, hs.2.2.2.2.1⟩
  rw [hs.2.1, (quiet_initProbe env (initEntry env w)).1.2.1,
    (quiet_initEntry env w).1.2.1]

/-- Witness for C6: at the initial world the no-disk guard passes and the
final not-initialized bit matches the detected-type case split. -/
theorem init_exit_c6_witness :
    initialWorld.st.stat &&& STA_NODISK = 0 ∧
    (disk_init ⟨fun _ => 0xFF⟩ 0 initialWorld).2.st.stat &&& STA_NOINIT =
      (if (initProbe ⟨fun _ => 0xFF⟩
            (initEntry ⟨fun _ => 0xFF⟩ initialWorld)).1 ≠ 0 then 0
       else initialWorld.st.stat &&& STA_NOINIT) :=
  ⟨by decide, (init_exit_c6 ⟨fun _ => 0xFF⟩ initialWorld (by decide)).1⟩

/-- A burst transmit advances the exchange index by exactly its byte
count. -/
theorem xmit_spi_multi_idx (env : Env) (buff : Nat → Nat) :
    ∀ (n off : Nat) (w : World),
      (xmit_spi_multi env buff off n w).idx = w.idx + n := by
  intro n
  induction n with
  | zero => intro off w; rfl
  | succ n ih =>
    intro off w
    show (xmit_spi_multi env buff (off + 1) n (xchg env (buff off) w).2).idx = _
    rw [ih]
    show w.idx + 1 + n = w.idx + (n + 1)
    omega

/-- A 0xFC frame transmission succeeds exactly when the card reports ready
within the budget and the data response — the byte 515 exchanges after the
ready poll ends (token, 512 data bytes, two CRC bytes) — has low five bits
0b00101. -/
theorem xmit_datablock_fc_ok (env : Env) (buff : Nat → Nat) (off : Nat)
    (w : World) :
    (xmit_datablock env buff off 0xFC w).1 = true ↔
      ((wait_ready env w).1 = true ∧
        env.card ((wait_ready env w).2.idx + 515) % 256 &&& 0x1F = 0x05) := by
  rw [xmit_datablock_eq]
  cases hok : (wait_ready env w).1 with
  | false =>
    rw [if_pos (show (!false) = true from rfl)]
    simp
  | true =>
    rw [if_neg (show ¬(!true) = true from by simp),
      if_pos (show (0xFC : Nat) ≠ 0xFD from by decide)]
    have hidx : (xchg env 0xFF
          (xchg env 0xFF
            (xmit_spi_multi env buff off 512
              (pushEv (Ev.dtoken 0xFC)
                (xchg env 0xFC (wait_ready env w).2).2))).2).2.idx =
        (wait_ready env w).2.idx + 515 := by
      show (xmit_spi_multi env buff off 512
          (pushEv (Ev.dtoken 0xFC)
            (xchg env 0xFC (wait_ready env w).2).2)).idx + 1 + 1 = _
      rw [xmit_spi_multi_idx]
      show (wait_ready env w).2.idx + 1 + 512 + 1 + 1 = _
      omega
    have hresp : (xchg env 0xFF
          (xchg env 0xFF
            (xchg env 0xFF
              (xmit_spi_multi env buff off 512
                (pushEv (Ev.dtoken 0xFC)
                  (xchg env 0xFC (wait_ready env w).2).2))).2).2).1 =
        env.card ((wait_ready env w).2.idx + 515) % 256 := by
      show env.card (xchg env 0xFF
          (xchg env 0xFF
            (xmit_spi_multi env buff off 512
              (pushEv (Ev.dtoken 0xFC)
                (xchg env 0xFC (wait_ready env w).2).2))).2).2.idx % 256 = _
      rw [hidx]
    rw [hresp]
    by_cases hr :
        env.card ((wait_ready env w).2.idx + 515) % 256 &&& 0x1F = 0x05
    · rw [if_neg (by simp [hr])]
      simp [hr]
    · rw [if_pos hr]
      simp [hr]

set_option maxRecDepth 100000 in
/-- Counterexample for C2: under a card that answers 0xFF for the first nine
exchanges (so CMD25 is accepted) and 0x00 ever after (so the card never again
reports ready), a two-block `disk_write` has its first 0xFC frame fail before
the token is even sent, and the stop-token transmission attempt likewise dies
in `wait_ready` — the stream-stop token 0xFD is transmitted zero times, not
"exactly once regardless of the loop outcome". -/
theorem multi_write_c2_cex :
    (send_cmd ⟨fun i => if i < 9 then 0xFF else 0⟩ 25 0
        ⟨⟨0, 0, 0, 1⟩, 0, []⟩).1 = 0 ∧
    (disk_write ⟨fun i => if i < 9 then 0xFF else 0⟩ 0 (fun _ => 0) 0 2
        ⟨⟨0, 0, 0, 1⟩, 0, []⟩).1 = RES_ERROR ∧
    tokenCount 0xFD
        (disk_write ⟨fun i => if i < 9 then 0xFF else 0⟩ 0 (fun _ => 0) 0 2
          ⟨⟨0, 0, 0, 1⟩, 0, []⟩).2.trace = 0 ∧
    tokenCount 0xFC
        (disk_write ⟨fun i => if i < 9 then 0xFF else 0⟩ 0 (fun _ => 0) 0 2
          ⟨⟨0, 0, 0, 1⟩, 0, []⟩).2.trace = 0 := by
  decide

/-- C2 (amended): for every multi-block `disk_write` whose guards pass and
whose CMD25 is accepted, the operation runs the block loop (one 0xFC frame
attempted per block, at most `count` in total, stopping early on the first
block whose frame fails), then makes exactly one stop-token transmission
attempt, and finally deselects; the loop itself never transmits 0xFD, and the
stop attempt transmits 0xFD exactly once if the card reports ready within the
wait budget and zero times otherwise (transmission of a token is conditional
on readiness, not unconditional); the result is OK iff every block was
accepted and the stop attempt succeeded; and a 0xFC frame succeeds iff the
card reported ready and the subsequent data response had low five bits
0b00101. -/
theorem multi_write_c2 (env : Env) (buff : Nat → Nat) (sector count : Nat)
    (w : World) (h1 : w.st.stat &&& STA_NOINIT = 0)
    (h2 : w.st.stat &&& STA_PROTECT = 0) (hc : 2 ≤ count)
    (h25 : (send_cmd env 25
        (if w.st.cardType &&& CT_BLOCK = 0 then sector * 512 % 4294967296
         else sector % 4294967296)
        (if w.st.cardType &&& CT_SDC ≠ 0 then (send_cmd env ACMD23 count w).2
         else w)).1 = 0) :
    C2Post env buff sector count w := by
  have hmw : multiWrite env buff
      (if w.st.cardType &&& CT_BLOCK = 0 then sector * 512 % 4294967296
       else sector % 4294967296) count w =
      (if (xmit_datablock env (fun _ => 0) 0 0xFD
            (writeLoopAux env buff count 0
              (send_cmd env 25
                (if w.st.cardType &&& CT_BLOCK = 0 then
                  sector * 512 % 4294967296
                 else sector % 4294967296)
                (if w.st.cardType &&& CT_SDC ≠ 0 then
                  (send_cmd env ACMD23 count w).2
                 else w)).2).2).1 = true then
          (writeLoopAux env buff count 0
            (send_cmd env 25
              (if w.st.cardType &&& CT_BLOCK = 0 then
                sector * 512 % 4294967296
               else sector % 4294967296)
              (if w.st.cardType &&& CT_SDC ≠ 0 then
                (send_cmd env ACMD23 count w).2
               else w)).2).1
        else 1,
        (xmit_datablock env (fun _ => 0) 0 0xFD
          (writeLoopAux env buff count 0
            (send_cmd env 25
              (if w.st.cardType &&& CT_BLOCK = 0 then
                sector * 512 % 4294967296
               else sector % 4294967296)
              (if w.st.cardType &&& CT_SDC ≠ 0 then
                (send_cmd env ACMD23 count w).2
               else w)).2).2).2) := by
    simp only [multiWrite]
    rw [h25]
    simp
  have hdw : disk_write env 0 buff sector count w =
      (if (if (xmit_datablock env (fun _ => 0) 0 0xFD
              (writeLoopAux env buff count 0
                (send_cmd env 25
                  (if w.st.cardType &&& CT_BLOCK = 0 then
                    sector * 512 % 4294967296
                   else sector % 4294967296)
                  (if w.st.cardType &&& CT_SDC ≠ 0 then
                    (send_cmd env ACMD23 count w).2
                   else w)).2).2).1 = true then
            (writeLoopAux env buff count 0
              (send_cmd env 25
                (if w.st.cardType &&& CT_BLOCK = 0 then
                  sector * 512 % 4294967296
                 else sector % 4294967296)
                (if w.st.cardType &&& CT_SDC ≠ 0 then
                  (send_cmd env ACMD23 count w).2
                 else w)).2).1
          else 1) ≠ 0 then RES_ERROR else RES_OK,
        mmc_deselect env
          (xmit_datablock env (fun _ => 0) 0 0xFD
            (writeLoopAux env buff count 0
              (send_cmd env 25
                (if w.st.cardType &&& CT_BLOCK = 0 then
                  sector * 512 % 4294967296
                 else sector % 4294967296)
                (if w.st.cardType &&& CT_SDC ≠ 0 then
                  (send_cmd env ACMD23 count w).2
                 else w)).2).2).2) := by
    simp only [disk_write]
    rw [if_neg (show ¬((0 : Nat) ≠ 0 ∨ count = 0) by omega),
      if_neg (show ¬(w.st.stat &&& STA_NOINIT ≠ 0) by simp [h1]),
      if_neg (show ¬(w.st.stat &&& STA_PROTECT ≠ 0) by simp [h2]),
      if_neg (show ¬(count = 1) by omega), hmw]
  simp only [C2Post]
  refine ⟨hdw, ?_, ?_, ?_, ?_, ?_, ?_⟩
  · rw [hdw]
    cases hS : (xmit_datablock env (fun _ => 0) 0 0xFD
        (writeLoopAux env buff count 0
          (send_cmd env 25
            (if w.st.cardType &&& CT_BLOCK = 0 then sector * 512 % 4294967296
             else sector % 4294967296)
            (if w.st.cardType &&& CT_SDC ≠ 0 then
              (send_cmd env ACMD23 count w).2
             else w)).2).2).1 with
    | false => simp [RES_ERROR, RES_OK]
    | true =>
      by_cases hL : (writeLoopAux env buff count 0
          (send_cmd env 25
            (if w.st.cardType &&& CT_BLOCK = 0 then sector * 512 % 4294967296
             else sector % 4294967296)
            (if w.st.cardType &&& CT_SDC ≠ 0 then
              (send_cmd env ACMD23 count w).2
             else w)).2).1 = 0 <;>
        simp [hL, RES_ERROR, RES_OK]
  · exact tokenCount_writeLoop_ne env buff 0xFD (by decide) count 0 _
  · rw [tokenCount_xmit_datablock]
    simp
  · exact tokenCount_writeLoop_fc_le env buff count 0 _
  · exact (quiet_mmc_deselect env _).2 0xFD
  · intro off w'
    exact xmit_datablock_fc_ok env buff off w'

/-- Witness for C2 at the counterexample card: the guards pass, CMD25 is
accepted, and the amended conclusion holds. -/
theorem multi_write_c2_witness :
    (⟨⟨0, 0, 0, 1⟩, 0, []⟩ : World).st.stat &&& STA_NOINIT = 0 ∧
    C2Post ⟨fun i => if i < 9 then 0xFF else 0⟩ (fun _ => 0) 0 2
      ⟨⟨0, 0, 0, 1⟩, 0, []⟩ :=
  ⟨by decide, multi_write_c2 ⟨fun i => if i < 9 then 0xFF else 0⟩
    (fun _ => 0) 0 2 ⟨⟨0, 0, 0, 1⟩, 0, []⟩ (by decide) (by decide)
    (by decide) (by decide)⟩
